import Mathlib

/-
  Verification development for the nfl-dashboard-backend normalization core.

  The definitions below are a shallow embedding of the Python mapping
  functions of the repository (app/main.py, app/services/scoreboard.py,
  app/services/games.py, app/cfb_scoreboard.py).  Python dictionaries are
  modelled by typed records whose fields are `Option`-valued (a `none`
  field models an absent key); scalar JSON values whose runtime type the
  code inspects are modelled by the `PyVal` type below.  Python exceptions
  that escape a mapper are modelled with `Except String`; the HTTP layer
  converts them to a gateway-style 502 response.

  All string primitives are implemented structurally over `List Char` so
  that every definition evaluates by kernel reduction.
-/

set_option autoImplicit false

namespace NflDash

/-! ## String primitives (kernel-computable models of the Python ones) -/

/-- Python `s.lower()` (ASCII case folding). -/
def strLower (s : String) : String :=
  ⟨s.data.map Char.toLower⟩

/-- Python `s.strip()`: remove leading and trailing whitespace. -/
def strStrip (s : String) : String :=
  ⟨((s.data.dropWhile Char.isWhitespace).reverse.dropWhile Char.isWhitespace).reverse⟩

/-- Whether `p` is a prefix of `l` (by decidable equality). -/
def listPrefix (p l : List Char) : Bool :=
  match p, l with
  | [], _ => true
  | _ :: _, [] => false
  | a :: as, b :: bs => a = b && listPrefix as bs

/-- Whether `pat` occurs as a contiguous substring of `l`. -/
def listContainsSub (pat l : List Char) : Bool :=
  match l with
  | [] => pat.isEmpty
  | _ :: rest => listPrefix pat l || listContainsSub pat rest

/-- Python `pat in s` (substring containment). -/
def strContainsSub (s pat : String) : Bool :=
  listContainsSub pat.data s.data

/-- Lexicographic comparison of character lists by code point. -/
def charListLe : List Char → List Char → Bool
  | [], _ => true
  | _ :: _, [] => false
  | a :: as, b :: bs =>
    if a = b then charListLe as bs else decide (a.toNat < b.toNat)

/-- Python `a <= b` on strings (code-point lexicographic order). -/
def pyStrLe (a b : String) : Bool :=
  charListLe a.data b.data

/-- Split a character list on a separator character; mirrors Python
`s.split(c)` (and `str.splitOn` for a one-character separator). -/
def splitOnCharList (c : Char) (l : List Char) : List (List Char) :=
  l.foldr
    (fun ch acc =>
      match acc with
      | cur :: rest => if ch = c then [] :: cur :: rest else (ch :: cur) :: rest
      | [] => [[ch]])
    [[]]

/-- Python `s.split(c)` for a single-character separator. -/
def splitOnChar (c : Char) (s : String) : List String :=
  (splitOnCharList c s.data).map (fun l => ⟨l⟩)

/-- Python `s.replace(" ", "")`. -/
def stripSpaces (s : String) : String :=
  ⟨s.data.filter (fun c => c ≠ ' ')⟩

/-- Nonempty and all ASCII decimal digits, i.e. Python `s.isdigit()`
(restricted to ASCII input). -/
def digitList (l : List Char) : Bool :=
  !l.isEmpty && l.all Char.isDigit

/-- Python `s.isdigit()`. -/
def isDigitStr (s : String) : Bool :=
  digitList s.data

/-- Numeric value of an ASCII digit list. -/
def digitsVal (l : List Char) : Nat :=
  l.foldl (fun acc c => acc * 10 + (c.toNat - 48)) 0

/-- Python `int(s)` on a string: optional sign, then decimal digits,
surrounding whitespace tolerated; `none` models a raised `ValueError`. -/
def pyIntOfStr (s : String) : Option Int :=
  match (strStrip s).data with
  | '-' :: rest => if digitList rest then some (-(digitsVal rest : Int)) else none
  | '+' :: rest => if digitList rest then some (digitsVal rest : Int) else none
  | t => if digitList t then some (digitsVal t : Int) else none

/-- Python `int(float(s))` on a string: a plain decimal literal (optional
sign, digits around an optional point, at least one digit) truncated
toward zero; exponent and special float forms are treated as
unparseable. -/
def intOfFloatStr (s : String) : Option Int :=
  let t := (strStrip s).data
  let (sign, body) :=
    match t with
    | '-' :: rest => ((-1 : Int), rest)
    | '+' :: rest => ((1 : Int), rest)
    | _ => ((1 : Int), t)
  match splitOnCharList '.' body with
  | [ip] => if digitList ip then some (sign * digitsVal ip) else none
  | [ip, fp] =>
      if (ip.isEmpty || digitList ip) && (fp.isEmpty || digitList fp)
          && !(ip.isEmpty && fp.isEmpty) then
        some (sign * digitsVal ip)
      else none
  | _ => none

/-- Python `float(s)` on a string, as an exact rational; same grammar as
`intOfFloatStr`. -/
def ratOfFloatStr (s : String) : Option ℚ :=
  let t := (strStrip s).data
  let (sign, body) :=
    match t with
    | '-' :: rest => ((-1 : ℚ), rest)
    | '+' :: rest => ((1 : ℚ), rest)
    | _ => ((1 : ℚ), t)
  match splitOnCharList '.' body with
  | [ip] => if digitList ip then some (sign * digitsVal ip) else none
  | [ip, fp] =>
      if (ip.isEmpty || digitList ip) && (fp.isEmpty || digitList fp)
          && !(ip.isEmpty && fp.isEmpty) then
        some (sign * ((digitsVal ip : ℚ) + (digitsVal fp : ℚ) / ((10 : ℚ) ^ fp.length)))
      else none
  | _ => none

/-! ## Python scalar values -/

/-- Scalar Python/JSON value as inspected by the mappers: `None`, a bool,
an (unbounded) integer or a string.  Mirrors the dynamic typing of the
payload fields the code branches on (lists and nested dicts are modelled
structurally where a mapper actually reads into them). -/
inductive PyVal where
  | sNone : PyVal
  | sBool : Bool → PyVal
  | sInt : Int → PyVal
  | sStr : String → PyVal
  deriving DecidableEq, Repr

/-- Python truthiness (`bool(v)`) of a scalar value. -/
def pyTruthy : PyVal → Bool
  | .sNone => false
  | .sBool b => b
  | .sInt n => n ≠ 0
  | .sStr s => s ≠ ""

/-- Python `str(v)` of a scalar value. -/
def pyStrOf : PyVal → String
  | .sNone => "None"
  | .sBool true => "True"
  | .sBool false => "False"
  | .sInt n => toString n
  | .sStr s => s

/-- `bool(d.get(k))` for an optional field. -/
def pyTruthyOpt : Option PyVal → Bool
  | some v => pyTruthy v
  | none => false

/-- Python `str(x or "")`: stringify a possibly absent value, the empty
string standing in for a falsy or missing one. -/
def pyStrOrEmpty : Option PyVal → String
  | some v => if pyTruthy v then pyStrOf v else ""
  | none => ""

/-- Python `a or b` on two optional scalar fields (first truthy wins). -/
def pyOrVal : Option PyVal → Option PyVal → Option PyVal
  | some v, b => if pyTruthy v then some v else b
  | none, b => b

/-- Python `a or b` on two optional string fields ("" is falsy). -/
def pyOrStr : Option String → Option String → Option String
  | some s, b => if s ≠ "" then some s else b
  | none, b => b

/-- Python `a or b` on two optional integer fields (0 is falsy). -/
def pyOrInt : Option Int → Option Int → Option Int
  | some n, b => if n ≠ 0 then some n else b
  | none, b => b

/-- `isinstance(v, int)` together with the value it denotes; Python bools
are a subtype of `int` (`True` counts as 1, `False` as 0). -/
def pyIsInt : PyVal → Option Int
  | .sBool b => some (if b then 1 else 0)
  | .sInt n => some n
  | _ => none

/-- Python `int(v)` on a scalar value; `none` models a raised
`TypeError`/`ValueError`. -/
def pyIntOf : PyVal → Option Int
  | .sBool b => some (if b then 1 else 0)
  | .sInt n => some n
  | .sStr s => pyIntOfStr s
  | .sNone => none

/-- Python `float(v)` on a scalar value, as an exact rational. -/
def pyFloatOf : PyVal → Option ℚ
  | .sBool b => some (if b then 1 else 0)
  | .sInt n => some (n : ℚ)
  | .sStr s => ratOfFloatStr s
  | .sNone => none

/-- `str(v).isdigit()` without materializing the `str` image. -/
def pyStrIsDigit (v : PyVal) : Bool :=
  isDigitStr (pyStrOf v)

/-- Whether an `Except` computation succeeded. -/
def exceptOk {ε α : Type} : Except ε α → Bool
  | .ok _ => true
  | .error _ => false

/-! ## Status Normalizer (app/cfb_scoreboard.py, `_normalize_cfb_status`) -/

/-- Synonyms mapped to `pre`. -/
def cfbPreSet : List String := ["scheduled", "upcoming", "pre-game", "pregame"]

/-- Synonyms mapped to `in`. -/
def cfbInSet : List String := ["in progress", "in_progress", "live"]

/-- Synonyms mapped to `halftime`. -/
def cfbHalftimeSet : List String := ["halftime", "half"]

/-- Synonyms mapped to `final`. -/
def cfbFinalSet : List String := ["final", "completed", "end of game"]

/-- Synonyms mapped to `post`. -/
def cfbPostSet : List String := ["postgame", "post"]

/-- Synonyms mapped to `delayed`. -/
def cfbDelayedSet : List String := ["delayed", "postponed", "canceled", "cancelled"]

/-- Every synonym recognized by the CFB status normalizer. -/
def cfbAllSynonyms : List String :=
  cfbPreSet ++ cfbInSet ++ cfbHalftimeSet ++ cfbFinalSet ++ cfbPostSet ++ cfbDelayedSet

/-- The closed status enumeration the mappers produce. -/
def statusStates : List String := ["pre", "in", "post", "halftime", "final", "delayed"]

/-- `_normalize_cfb_status(raw_status, completed)`: map the provider status
string plus completion flag into the closed status vocabulary.  The
`completed` argument is `some true`/`some false` for a boolean flag and
`none` for an absent (or non-boolean) one, matching the `is True` /
`is False` identity tests of the source. -/
def normalize_cfb_status (raw_status : Option String) (completed : Option Bool) : String :=
  let s := strStrip (strLower (raw_status.getD ""))
  if s ∈ cfbPreSet then "pre"
  else if s ∈ cfbInSet then "in"
  else if s ∈ cfbHalftimeSet then "halftime"
  else if s ∈ cfbFinalSet then "final"
  else if s ∈ cfbPostSet then "post"
  else if s ∈ cfbDelayedSet then "delayed"
  else if completed = some true then "final"
  else if completed = some false then "pre"
  else "pre"

/-- Membership in the combined synonym table follows from membership in any
of the per-state synonym sets. -/
theorem mem_cfbAllSynonyms_of {s : String}
    (h : s ∈ cfbPreSet ∨ s ∈ cfbInSet ∨ s ∈ cfbHalftimeSet ∨ s ∈ cfbFinalSet ∨
      s ∈ cfbPostSet ∨ s ∈ cfbDelayedSet) : s ∈ cfbAllSynonyms := by
  simp only [cfbAllSynonyms, List.mem_append]
  tauto

/-- Claim C1: the Status Normalizer is total onto the closed enumeration
pre, in, halftime, post, final, delayed; and for every raw status whose
lower-cased, trimmed text matches no known synonym set, the result is
determined solely by the completion flag: completed = true yields final,
completed = false or an absent flag yields pre. -/
theorem c1_status_normalizer (raw : Option String) (completed : Option Bool) :
    normalize_cfb_status raw completed ∈ statusStates ∧
      (strStrip (strLower (raw.getD "")) ∉ cfbAllSynonyms →
        normalize_cfb_status raw completed =
          if completed = some true then "final" else "pre") := by
  constructor
  · simp only [normalize_cfb_status]
    repeat' split
    all_goals decide
  · intro h
    have h1 : strStrip (strLower (raw.getD "")) ∉ cfbPreSet :=
      fun hm => h (mem_cfbAllSynonyms_of (Or.inl hm))
    have h2 : strStrip (strLower (raw.getD "")) ∉ cfbInSet :=
      fun hm => h (mem_cfbAllSynonyms_of (Or.inr (Or.inl hm)))
    have h3 : strStrip (strLower (raw.getD "")) ∉ cfbHalftimeSet :=
      fun hm => h (mem_cfbAllSynonyms_of (Or.inr (Or.inr (Or.inl hm))))
    have h4 : strStrip (strLower (raw.getD "")) ∉ cfbFinalSet :=
      fun hm => h (mem_cfbAllSynonyms_of (Or.inr (Or.inr (Or.inr (Or.inl hm)))))
    have h5 : strStrip (strLower (raw.getD "")) ∉ cfbPostSet :=
      fun hm => h (mem_cfbAllSynonyms_of (Or.inr (Or.inr (Or.inr (Or.inr (Or.inl hm))))))
    have h6 : strStrip (strLower (raw.getD "")) ∉ cfbDelayedSet :=
      fun hm => h (mem_cfbAllSynonyms_of (Or.inr (Or.inr (Or.inr (Or.inr (Or.inr hm))))))
    simp only [normalize_cfb_status]
    rw [if_neg h1, if_neg h2, if_neg h3, if_neg h4, if_neg h5, if_neg h6]
    rcases completed with _ | b
    · simp
    · cases b <;> simp

/-- Witness for C1: the unrecognized status "Mystery Status" with
completed = true normalizes to final. -/
theorem c1_status_normalizer_witness :
    (strStrip (strLower ((some "Mystery Status" : Option String).getD "")) ∉ cfbAllSynonyms) ∧
      normalize_cfb_status (some "Mystery Status") (some true) = "final" := by
  refine ⟨by decide, ?_⟩
  have h := (c1_status_normalizer (some "Mystery Status") (some true)).2 (by decide)
  simpa using h

/-! ## Summary-shaped payload model (the "shape A" tree read by app/main.py) -/

/-- `status.type` object of a competition. -/
structure StatusType where
  state : Option String := none
  completed : Option PyVal := none
  name : Option String := none
  description : Option String := none
  period : Option Int := none
  displayClock : Option String := none
  deriving DecidableEq, Repr

/-- `status` wrapper holding a `type` sub-object. -/
structure StatusWrap where
  type : Option StatusType := none
  deriving DecidableEq, Repr

/-- One element of a competitor record list (`{"summary": ...}`). -/
structure RecordEntry where
  summary : Option String := none
  deriving DecidableEq, Repr

/-- A competitor records field: the code tolerates both a list of record
objects and a single record object. -/
inductive RecordsVal where
  | list (entries : List RecordEntry)
  | dict (entry : RecordEntry)
  deriving DecidableEq, Repr

/-- Python truthiness of a records field (an empty list is falsy). -/
def recordsTruthy : RecordsVal → Bool
  | .list l => !l.isEmpty
  | .dict _ => true

/-- Python `a or b` on optional records fields. -/
def pyOrRecords : Option RecordsVal → Option RecordsVal → Option RecordsVal
  | some r, b => if recordsTruthy r then some r else b
  | none, b => b

/-- One per-quarter line-score entry of a competitor. -/
structure LineScoreRaw where
  period : Option PyVal := none
  number : Option PyVal := none
  sequence : Option PyVal := none
  value : Option PyVal := none
  displayValue : Option PyVal := none
  deriving DecidableEq, Repr

/-- Nested `team` object of a competitor. -/
structure TeamRaw where
  id : Option PyVal := none
  displayName : Option String := none
  name : Option String := none
  nickname : Option String := none
  abbreviation : Option String := none
  location : Option String := none
  deriving DecidableEq, Repr

/-- One raw competitor of a competition. -/
structure RawCompetitor where
  homeAway : Option String := none
  team : Option TeamRaw := none
  score : Option PyVal := none
  records : Option RecordsVal := none
  record : Option RecordsVal := none
  linescores : List LineScoreRaw := []
  deriving DecidableEq, Repr

/-- `situation.lastPlay` object. -/
structure LastPlayRaw where
  text : Option String := none
  shortText : Option String := none
  deriving DecidableEq, Repr

/-- `competition.situation` object. -/
structure SituationRaw where
  possession : Option PyVal := none
  down : Option PyVal := none
  distance : Option PyVal := none
  yardLine : Option PyVal := none
  isRedZone : Option PyVal := none
  homeTimeouts : Option PyVal := none
  awayTimeouts : Option PyVal := none
  lastPlay : Option LastPlayRaw := none
  deriving DecidableEq, Repr

/-- `venue.address` object. -/
structure AddressRaw where
  city : Option String := none
  state : Option String := none
  deriving DecidableEq, Repr

/-- `competition.venue` object. -/
structure VenueRaw where
  fullName : Option String := none
  name : Option String := none
  indoor : Option PyVal := none
  address : Option AddressRaw := none
  deriving DecidableEq, Repr

/-- A broadcast object as fetched from the Core API. -/
structure CoreBroadcastData where
  names : Option (List PyVal) := none
  shortName : Option PyVal := none
  name : Option PyVal := none
  network : Option PyVal := none
  deriving DecidableEq, Repr

/-- A broadcast entry of a (possibly synthesized) payload: either the
normalized `{"names": [network], "network": network}` object or a raw
networkless broadcast object passed through verbatim. -/
inductive BroadcastOut where
  | named (network : PyVal)
  | raw (b : CoreBroadcastData)
  deriving DecidableEq, Repr

/-- `header.season` object (a non-dict value is treated as `{}`). -/
structure SeasonRaw where
  year : Option Int := none
  deriving DecidableEq, Repr

/-- `header.week` object (a non-dict value is treated as `{}`). -/
structure WeekRaw where
  number : Option Int := none
  deriving DecidableEq, Repr

/-- One competition of the `header.competitions` list. -/
structure CompRaw where
  date : Option String := none
  status : Option StatusWrap := none
  competitors : List RawCompetitor := []
  situation : Option SituationRaw := none
  venue : Option VenueRaw := none
  broadcasts : List BroadcastOut := []
  deriving DecidableEq, Repr

/-- `header` wrapper of a summary-shaped payload. -/
structure HeaderRaw where
  season : Option SeasonRaw := none
  week : Option WeekRaw := none
  competitions : List CompRaw := []
  deriving DecidableEq, Repr

/-- One scoring play of `payload.scoringPlays` (the fields read by the
per-quarter summary computation of `_map_scoring`). -/
structure PeriodRaw where
  number : Option PyVal := none
  value : Option PyVal := none
  deriving DecidableEq, Repr

/-- Nested `team` object of a scoring play (only its id is read). -/
structure TeamIdRaw where
  id : Option PyVal := none
  deriving DecidableEq, Repr

/-- A raw scoring play. -/
structure ScoringPlayRaw where
  team : Option TeamIdRaw := none
  period : Option PeriodRaw := none
  scoreValue : Option PyVal := none
  value : Option PyVal := none
  deriving DecidableEq, Repr

/-- A summary-shaped payload (the parts consumed by the embedded mappers;
a synthesized Core fallback payload carries an empty `scoringPlays`
list). -/
structure Payload where
  header : Option HeaderRaw := none
  scoringPlays : List ScoringPlayRaw := []
  deriving DecidableEq, Repr

/-! ## `_normalize_game_status` (app/main.py) -/

/-- Result triple of `_normalize_game_status`. -/
structure NormalizedStatus where
  status : String
  period : Option Int
  clock : Option String
  deriving DecidableEq, Repr

/-- `_normalize_game_status(status)`: normalize an ESPN `status.type`
object into the canonical state/period/clock trio.  The source's
`isinstance(status, dict)` guard is subsumed by the typed argument. -/
def normalize_game_status (status : StatusType) : NormalizedStatus :=
  let state := strLower (status.state.getD "")
  let completed := pyTruthyOpt status.completed
  let nm := strLower (status.name.getD "")
  let description := strLower (status.description.getD "")
  let state :=
    if state ∈ statusStates then state
    else if strContainsSub nm "halftime" || strContainsSub description "halftime" then "halftime"
    else if strContainsSub nm "delayed" || strContainsSub description "delayed" then "delayed"
    else if completed then
      (if strContainsSub description "final" || strContainsSub nm "final" then "final" else "post")
    else if state = "" then
      (if strContainsSub nm "scheduled" || strContainsSub nm "pregame" then "pre" else "in")
    else state
  ⟨state, status.period, status.displayClock⟩

/-! ## `_map_team_header` and `_map_header` (app/main.py) -/

/-- Output team header record (app/schemas.py `TeamHeader`). -/
structure TeamHeader where
  id : String
  name : String
  full_name : String
  abbreviation : String
  record : Option String
  score : Int
  deriving DecidableEq, Repr

/-- `" ".join(parts)`. -/
def joinSpace : List String → String
  | [] => ""
  | [x] => x
  | x :: xs => x ++ " " ++ joinSpace xs

/-- Python `a or b` with a mandatory string fallback. -/
def pyOrStrD (a : Option String) (b : String) : String :=
  match a with
  | some s => if s ≠ "" then s else b
  | none => b

/-- `_map_team_header(raw_competitor)`: extract the team header (name,
record, coerced score) from one raw competitor. -/
def map_team_header (raw : Option RawCompetitor) : TeamHeader :=
  let rawc := raw.getD {}
  let team := rawc.team.getD {}
  let records := (pyOrRecords rawc.records rawc.record).getD (.list [])
  let record_str : Option String :=
    match records with
    | .list (e :: _) => e.summary
    | .list [] => none
    | .dict e => e.summary
  let score_val := (pyOrVal rawc.score (some (.sStr "0"))).getD (.sStr "0")
  let score := (pyIntOf score_val).getD 0
  let joined := joinSpace (List.filterMap
    (fun p => match p with
      | some s => if s ≠ "" then some s else none
      | none => none)
    [team.location, team.name])
  let full_name := pyOrStrD team.displayName (pyOrStrD (some joined) (pyOrStrD team.name ""))
  { id := pyStrOrEmpty team.id
    name := pyOrStrD team.name (pyOrStrD team.nickname full_name)
    full_name := full_name
    abbreviation := pyOrStrD team.abbreviation ""
    record := record_str
    score := score }

/-- Output game header record (app/schemas.py `Header`). -/
structure Header where
  game_id : String
  league : String
  season : Int
  week : Option Int
  status : String
  kickoff_time_utc : String
  home_team : TeamHeader
  away_team : TeamHeader
  quarter : Option Int
  clock : Option String
  possession : Option String
  down : Option Int
  distance : Option Int
  yard_line : Option Int
  red_zone : Bool
  home_timeouts : Option Int
  away_timeouts : Option Int
  last_play_short : Option String
  last_updated_utc : String
  deriving DecidableEq, Repr

/-- `(c.get("homeAway") or "").lower()` of one competitor. -/
def flagLower (c : RawCompetitor) : String :=
  strLower (c.homeAway.getD "")

/-- Loop of `_map_header` that assigns `home_comp`/`away_comp`: every
competitor whose lowered flag matches overwrites the previous one, so the
last match wins. -/
def findSide (cs : List RawCompetitor) (side : String) : Option RawCompetitor :=
  (cs.filter (fun c => flagLower c = side)).getLast?

/-- `isinstance(v, int)` on an optional field. -/
def pyIsIntOpt : Option PyVal → Option Int
  | some v => pyIsInt v
  | none => none

/-- `status.type` of a competition (`comp.get("status")`, tolerating a
missing wrapper or type, as in `_map_header`). -/
def compStatusType (comp : CompRaw) : StatusType :=
  (comp.status.bind (·.type)).getD {}

/-- `_map_header(payload, game_id)`: assemble the `Header` for one game.
A raised `KeyError` (missing competitions, unidentifiable home/away) and
a failed output-schema validation are modelled as `Except.error`; the
route handler converts any such error into a gateway-style 502.  The two
wall-clock reads (`datetime.now()`) are passed in as `nowYear`/`nowIso`. -/
def map_header (payload : Payload) (game_id : String) (nowYear : Int) (nowIso : String) :
    Except String Header :=
  let header := payload.header.getD {}
  match header.competitions with
  | [] => .error "header.competitions missing in ESPN response"
  | comp :: _ =>
    let season := header.season.getD {}
    let week := header.week.getD {}
    let normalized := normalize_game_status (compStatusType comp)
    let state := normalized.status
    let kickoff_time := comp.date.getD ""
    match findSide comp.competitors "home", findSide comp.competitors "away" with
    | some home_comp, some away_comp =>
      let situation := comp.situation.getD {}
      let possession_team_id := strStrip (pyStrOrEmpty situation.possession)
      let home_team_id := pyStrOrEmpty ((home_comp.team.getD {}).id)
      let away_team_id := pyStrOrEmpty ((away_comp.team.getD {}).id)
      let possession_side : Option String :=
        if possession_team_id ≠ "" then
          if possession_team_id = home_team_id then some "home"
          else if possession_team_id = away_team_id then some "away"
          else none
        else none
      let down := pyIsIntOpt situation.down
      let distance := pyIsIntOpt situation.distance
      let yardRed : Option Int × Bool :=
        match pyIsIntOpt situation.yardLine with
        | some n => (some n, decide (n ≥ 80))
        | none => (none, pyTruthyOpt situation.isRedZone)
      let home_timeouts := pyIsIntOpt situation.homeTimeouts
      let away_timeouts := pyIsIntOpt situation.awayTimeouts
      let last_play_short : Option String :=
        match situation.lastPlay with
        | some lp => pyOrStr lp.text lp.shortText
        | none => none
      if state ∈ statusStates then
        .ok
          { game_id := game_id
            league := "NFL"
            season := (pyOrInt season.year (some nowYear)).getD nowYear
            week := week.number
            status := state
            kickoff_time_utc := kickoff_time
            home_team := map_team_header (some home_comp)
            away_team := map_team_header (some away_comp)
            quarter := normalized.period
            clock := normalized.clock
            possession := possession_side
            down := down
            distance := distance
            yard_line := yardRed.1
            red_zone := yardRed.2
            home_timeouts := home_timeouts
            away_timeouts := away_timeouts
            last_play_short := last_play_short
            last_updated_utc := nowIso }
      else .error "header failed response-model validation"
    | _, _ => .error "home/away competitors missing in ESPN response"

/-- Status code the `/games/{id}/live` route returns for the outcome of
the common mapping path: any raised mapping error is converted into a
gateway-style 502 response, a success into 200. -/
def gameLiveStatus (r : Except String Header) : Nat :=
  match r with
  | .error _ => 502
  | .ok _ => 200

/-! ## Claims C2, C3, C4 about `_map_header` -/

/-- A payload with two competitors that both lack the homeAway flag. -/
def c2FlaglessPayload : Payload :=
  { header := some { competitions := [ { competitors := [
      { team := some { id := some (.sStr "1") } },
      { team := some { id := some (.sStr "2") } } ] } ] } }

/-- Claim C2 counterexample: a payload whose competitors list has two
entries, both with the homeAway flag missing.  The claim asserts the
mapper falls back to index position (first = home, second = away) and
succeeds; the code has no index-based fallback and fails. -/
theorem c2_counterexample :
    (((c2FlaglessPayload.header.getD {}).competitions.head?.getD {}).competitors.length = 2 ∧
      ∀ c ∈ ((c2FlaglessPayload.header.getD {}).competitions.head?.getD {}).competitors,
        c.homeAway = none) ∧
    exceptOk (map_header c2FlaglessPayload "401" 2025 "now") = false := by
  decide

/-- Claim C2 (amended): the Header Mapper identifies home and away solely
by the explicit homeAway flag (lower-cased; the last matching competitor
wins); there is no index-position fallback.  Provided the normalized
status of the first competition validates against the closed status
enumeration, the mapper fails — and the caller returns a gateway-style
502 instead of crashing — exactly when the competitions list is empty or
no competitor is flagged home or no competitor is flagged away (which in
particular covers every competitors list with fewer than two
identifiable entries). -/
theorem c2_header_failure_condition (payload : Payload) (gid : String) (nowYear : Int)
    (nowIso : String)
    (hstate : ∀ comp rest, (payload.header.getD {}).competitions = comp :: rest →
      (normalize_game_status (compStatusType comp)).status ∈ statusStates) :
    ((∃ e, map_header payload gid nowYear nowIso = .error e) ↔
      ((payload.header.getD {}).competitions = [] ∨
        ∃ comp rest, (payload.header.getD {}).competitions = comp :: rest ∧
          (findSide comp.competitors "home" = none ∨ findSide comp.competitors "away" = none))) ∧
    (gameLiveStatus (map_header payload gid nowYear nowIso) = 502 ↔
      (∃ e, map_header payload gid nowYear nowIso = .error e)) := by
  constructor
  · cases hcomps : (payload.header.getD {}).competitions with
    | nil =>
      simp only [map_header, hcomps]
      simp
    | cons comp rest =>
      have hst := hstate comp rest hcomps
      simp only [map_header, hcomps]
      cases hhome : findSide comp.competitors "home" with
      | none => simp [hhome, hcomps]
      | some hc =>
        cases haway : findSide comp.competitors "away" with
        | none => simp [hhome, haway, hcomps]
        | some ac => simp [hhome, haway, hst, hcomps]
  · cases hr : map_header payload gid nowYear nowIso with
    | error e => simp [gameLiveStatus]
    | ok h => simp [gameLiveStatus]

/-- First competition of the C2 witness payload: a single competitor is
flagged home, so away cannot be identified. -/
def c2WitnessComp : CompRaw :=
  { status := some { type := some { state := some "in" } },
    competitors := [ { homeAway := some "home", team := some { id := some (.sStr "7") } } ] }

/-- A payload with a single home-flagged competitor. -/
def c2WitnessPayload : Payload :=
  { header := some { competitions := [c2WitnessComp] } }

/-- Witness for C2 (amended), evaluated on `c2WitnessPayload`: the mapper
rejects it and the caller returns a 502. -/
theorem c2_header_failure_condition_witness :
    gameLiveStatus (map_header c2WitnessPayload "401" 2025 "now") = 502 := by
  have hmain := c2_header_failure_condition c2WitnessPayload "401" 2025 "now"
    (by intro comp rest hh
        have h2 : (c2WitnessPayload.header.getD {}).competitions = [c2WitnessComp] := rfl
        rw [h2] at hh
        injection hh with e1 _
        rw [← e1]
        decide)
  exact hmain.2.mpr (hmain.1.mpr (Or.inr ⟨c2WitnessComp, [], by decide, Or.inr (by decide)⟩))

/-- A live payload whose situation carries an explicit red-zone flag set
to true together with the integer yard-line 50. -/
def c3RedZonePayload : Payload :=
  { header := some { competitions := [ {
      status := some { type := some { state := some "in" } },
      competitors := [
        { homeAway := some "home", team := some { id := some (.sStr "12") } },
        { homeAway := some "away", team := some { id := some (.sStr "8") } } ],
      situation := some { isRedZone := some (.sBool true), yardLine := some (.sInt 50) } } ] } }

/-- Claim C3 counterexample: with the explicit red-zone boolean true and
yard-line 50, the claim's OR semantics demand a red-zone output of true,
but the mapper outputs false (the yard-line branch ignores the explicit
flag). -/
theorem c3_counterexample :
    pyTruthyOpt (((c3RedZonePayload.header.getD {}).competitions.head?.getD {}).situation.getD
      {}).isRedZone = true ∧
    pyIsIntOpt (((c3RedZonePayload.header.getD {}).competitions.head?.getD {}).situation.getD
      {}).yardLine = some 50 ∧
    (map_header c3RedZonePayload "g" 2025 "t").toOption.map Header.red_zone = some false := by
  decide

/-- Claim C3 (amended): when the situation carries an integer yard-line,
the Header Mapper's red-zone output equals (yard-line >= 80) and the
explicit red-zone boolean is ignored (in particular 80 yields true and
79 yields false); only when no integer yard-line is present does the
output equal the truthiness of the explicit flag. -/
theorem c3_red_zone (payload : Payload) (gid : String) (nowYear : Int) (nowIso : String)
    (comp : CompRaw) (rest : List CompRaw) (h : Header)
    (hcomps : (payload.header.getD {}).competitions = comp :: rest)
    (hok : map_header payload gid nowYear nowIso = .ok h) :
    (∀ n : Int, pyIsIntOpt (comp.situation.getD {}).yardLine = some n →
      h.red_zone = decide (n ≥ 80)) ∧
    (pyIsIntOpt (comp.situation.getD {}).yardLine = none →
      h.red_zone = pyTruthyOpt (comp.situation.getD {}).isRedZone) := by
  simp only [map_header, hcomps] at hok
  cases hhome : findSide comp.competitors "home" with
  | none => rw [hhome] at hok; simp at hok
  | some hc =>
    cases haway : findSide comp.competitors "away" with
    | none => rw [hhome, haway] at hok; simp at hok
    | some ac =>
      rw [hhome, haway] at hok
      dsimp only at hok
      by_cases hst : (normalize_game_status (compStatusType comp)).status ∈ statusStates
      · rw [if_pos hst] at hok
        injection hok with hh
        subst hh
        constructor
        · intro n hn
          simp [hn]
        · intro hn
          simp [hn]
      · rw [if_neg hst] at hok
        simp at hok

/-- Payloads probing the 80/79 red-zone boundary with no explicit flag. -/
def c3Boundary (yl : Int) : Payload :=
  { header := some { competitions := [ {
      status := some { type := some { state := some "in" } },
      competitors := [
        { homeAway := some "home", team := some { id := some (.sStr "12") } },
        { homeAway := some "away", team := some { id := some (.sStr "8") } } ],
      situation := some { yardLine := some (.sInt yl) } } ] } }

/-- Witness for C3 (amended): yard-line 80 yields red-zone true and 79
yields false. -/
theorem c3_red_zone_witness :
    (map_header (c3Boundary 80) "g" 2025 "t").toOption.map Header.red_zone = some true ∧
    (map_header (c3Boundary 79) "g" 2025 "t").toOption.map Header.red_zone = some false := by
  constructor
  · cases hok : map_header (c3Boundary 80) "g" 2025 "t" with
    | error e =>
      have hne : exceptOk (map_header (c3Boundary 80) "g" 2025 "t") = true := by decide
      rw [hok] at hne; simp [exceptOk] at hne
    | ok h =>
      have hrz := (c3_red_zone (c3Boundary 80) "g" 2025 "t" _ _ h rfl hok).1 80 (by decide)
      simp [Except.toOption, hrz]
  · cases hok : map_header (c3Boundary 79) "g" 2025 "t" with
    | error e =>
      have hne : exceptOk (map_header (c3Boundary 79) "g" 2025 "t") = true := by decide
      rw [hok] at hne; simp [exceptOk] at hne
    | ok h =>
      have hrz := (c3_red_zone (c3Boundary 79) "g" 2025 "t" _ _ h rfl hok).1 79 (by decide)
      simp [Except.toOption, hrz]

/-- A live payload whose raw possession value is the integer 0 while the
home team id is the string "0". -/
def c4PossessionPayload : Payload :=
  { header := some { competitions := [ {
      status := some { type := some { state := some "in" } },
      competitors := [
        { homeAway := some "home", team := some { id := some (.sStr "0") } },
        { homeAway := some "away", team := some { id := some (.sStr "8") } } ],
      situation := some { possession := some (.sInt 0) } } ] } }

/-- Claim C4 counterexample: the raw possession value 0 stringifies to
"0", which equals the home team id, so the claim demands possession =
"home"; but the mapper treats the falsy raw value as absent and outputs
null. -/
theorem c4_counterexample :
    (((c4PossessionPayload.header.getD {}).competitions.head?.getD {}).situation.getD
      {}).possession = some (.sInt 0) ∧
    pyStrOf (.sInt 0) =
      pyStrOrEmpty ((((findSide ((c4PossessionPayload.header.getD
        {}).competitions.head?.getD {}).competitors "home").getD {}).team.getD {}).id) ∧
    (map_header c4PossessionPayload "g" 2025 "t").toOption.map Header.possession =
      some none := by
  decide

/-- Case analysis of the possession-resolution conditional: a side is
only produced when the stripped possession text equals that side's team
id, and an empty text always yields null. -/
theorem possessionIfCases (p hid aid : String) :
    ((if p ≠ "" then
        if p = hid then some "home" else if p = aid then some "away" else none
      else (none : Option String)) = some "home" → p = hid) ∧
    ((if p ≠ "" then
        if p = hid then some "home" else if p = aid then some "away" else none
      else (none : Option String)) = some "away" → p = aid) ∧
    (p = "" →
      (if p ≠ "" then
        if p = hid then some "home" else if p = aid then some "away" else none
      else (none : Option String)) = none) := by
  split_ifs <;> simp_all

/-- Claim C4 (amended): the Header Mapper's possession output is "home"
when the raw possession value is truthy and its stringified, stripped
text equals the home team's id; "away" when that text instead equals the
away team's id; and null otherwise — in particular a falsy raw value
(absent, 0, or empty string) always yields null, and possession never
resolves to a side whose team id its text does not match. -/
theorem c4_possession (payload : Payload) (gid : String) (nowYear : Int) (nowIso : String)
    (comp : CompRaw) (rest : List CompRaw) (hc ac : RawCompetitor) (h : Header)
    (hcomps : (payload.header.getD {}).competitions = comp :: rest)
    (hhome : findSide comp.competitors "home" = some hc)
    (haway : findSide comp.competitors "away" = some ac)
    (hok : map_header payload gid nowYear nowIso = .ok h) :
    (h.possession =
      (if strStrip (pyStrOrEmpty (comp.situation.getD {}).possession) ≠ "" then
        if strStrip (pyStrOrEmpty (comp.situation.getD {}).possession) =
            pyStrOrEmpty ((hc.team.getD {}).id) then some "home"
        else if strStrip (pyStrOrEmpty (comp.situation.getD {}).possession) =
            pyStrOrEmpty ((ac.team.getD {}).id) then some "away"
        else none
      else none)) ∧
    (h.possession = some "home" →
      strStrip (pyStrOrEmpty (comp.situation.getD {}).possession) =
        pyStrOrEmpty ((hc.team.getD {}).id)) ∧
    (h.possession = some "away" →
      strStrip (pyStrOrEmpty (comp.situation.getD {}).possession) =
        pyStrOrEmpty ((ac.team.getD {}).id)) ∧
    ((comp.situation.getD {}).possession = none → h.possession = none) := by
  simp only [map_header, hcomps] at hok
  rw [hhome, haway] at hok
  dsimp only at hok
  by_cases hst : (normalize_game_status (compStatusType comp)).status ∈ statusStates
  · rw [if_pos hst] at hok
    injection hok with hh
    subst hh
    refine ⟨rfl, ?_, ?_, ?_⟩
    · exact (possessionIfCases _ _ _).1
    · exact (possessionIfCases _ _ _).2.1
    · exact fun hp => (possessionIfCases _ _ _).2.2 (by rw [hp]; decide)
  · rw [if_neg hst] at hok
    simp at hok

/-- A live payload with possession "12" equal to the home team id. -/
def c4WitnessPayload : Payload :=
  { header := some { competitions := [ {
      status := some { type := some { state := some "in" } },
      competitors := [
        { homeAway := some "home", team := some { id := some (.sStr "12") } },
        { homeAway := some "away", team := some { id := some (.sStr "8") } } ],
      situation := some { possession := some (.sStr "12") } } ] } }

/-- Witness for C4 (amended): possession "12" with home id "12" resolves
to the home side. -/
theorem c4_possession_witness :
    (map_header c4WitnessPayload "g" 2025 "t").toOption.map Header.possession =
      some (some "home") := by
  cases hok : map_header c4WitnessPayload "g" 2025 "t" with
  | error e =>
    have hne : exceptOk (map_header c4WitnessPayload "g" 2025 "t") = true := by decide
    rw [hok] at hne; simp [exceptOk] at hne
  | ok h =>
    have hp := (c4_possession c4WitnessPayload "g" 2025 "t" _ _ _ _ h rfl rfl rfl hok).1
    have hp2 : h.possession = some "home" := by rw [hp]; decide
    simp [Except.toOption, hp2]

/-! ## Scoring Mapper per-quarter summary (app/main.py, `_map_scoring`) -/

/-- An insertion-ordered `int -> int` Python dict. -/
abbrev IntDict := List (Int × Int)

/-- `d.get(k)` as an option. -/
def dictLookup (d : IntDict) (k : Int) : Option Int :=
  (d.find? (fun p => p.1 = k)).map (·.2)

/-- `d.get(k, dflt)`. -/
def dictGetD (d : IntDict) (k : Int) (dflt : Int) : Int :=
  (dictLookup d k).getD dflt

/-- `d[k] = v`: replace in place or append. -/
def dictSet (d : IntDict) (k v : Int) : IntDict :=
  match d with
  | [] => [(k, v)]
  | (k2, v2) :: rest => if k2 = k then (k, v) :: rest else (k2, v2) :: dictSet rest k v

/-- `d.keys()`. -/
def dictKeys (d : IntDict) : List Int :=
  d.map (·.1)

/-- One output entry of `summary_by_quarter`. -/
structure QuarterScoring where
  quarter : Int
  home_points : Int
  away_points : Int
  deriving DecidableEq, Repr

/-- `ls.get("period") or ls.get("number") or ls.get("sequence")` of one
line-score entry. -/
def linescorePeriod (ls : LineScoreRaw) : Option PyVal :=
  pyOrVal ls.period (pyOrVal ls.number ls.sequence)

/-- Value coercion of one line-score entry: a numeric value is truncated
to int, a string value is parsed through `int(float(s))`, anything else
yields `None`; `displayValue` is consulted when `value` is not numeric. -/
def linescoreValueInt (ls : LineScoreRaw) : Option Int :=
  let rv : Option PyVal :=
    match ls.value with
    | some v => if (pyIsInt v).isSome then some v else ls.displayValue
    | none => ls.displayValue
  match rv with
  | some v =>
    match pyIsInt v with
    | some n => some n
    | none =>
      match v with
      | .sStr s => intOfFloatStr s
      | _ => none
  | none => none

/-- `_extract_linescore_points(comp, side_key)`: per-quarter points of the
first competitor whose lowered flag matches `side_key` (assignment per
period, so a repeated period keeps the last value). -/
def extract_linescore_points (comp : CompRaw) (side_key : String) : IntDict :=
  match comp.competitors.find? (fun c => flagLower c = side_key) with
  | some c =>
      c.linescores.foldl
        (fun d ls =>
          match pyIsIntOpt (linescorePeriod ls), linescoreValueInt ls with
          | some p, some v => dictSet d p v
          | _, _ => d) []
  | none => []

/-- `period_info.get("number") or period_info.get("value")` of a scoring
play, kept only when an int. -/
def scoringPlayQuarter (p : ScoringPlayRaw) : Option Int :=
  pyIsIntOpt (pyOrVal (p.period.getD {}).number (p.period.getD {}).value)

/-- `p.get("scoreValue") or p.get("value")` of a scoring play, kept only
when an int. -/
def scoringPlayPoints (p : ScoringPlayRaw) : Option Int :=
  pyIsIntOpt (pyOrVal p.scoreValue p.value)

/-- `str((p.get("team") or {}).get("id") or "")` of a scoring play. -/
def scoringPlayTeamId (p : ScoringPlayRaw) : String :=
  pyStrOrEmpty (p.team.getD {}).id

/-- One iteration of the quarter-total fallback loop of `_map_scoring`:
a play with an int quarter and int points adds its points to its side's
per-quarter accumulator; plays matching neither side are skipped. -/
def scoringStep (home_id away_id : String) (st : IntDict × IntDict) (p : ScoringPlayRaw) :
    IntDict × IntDict :=
  match scoringPlayQuarter p with
  | none => st
  | some q =>
    match scoringPlayPoints p with
    | none => st
    | some pts =>
      if scoringPlayTeamId p = home_id then
        (dictSet st.1 q (dictGetD st.1 q 0 + pts), st.2)
      else if scoringPlayTeamId p = away_id then
        (st.1, dictSet st.2 q (dictGetD st.2 q 0 + pts))
      else st

/-- The quarter-total fallback loop of `_map_scoring`. -/
def scoringFold (home_id away_id : String) (plays : List ScoringPlayRaw)
    (st : IntDict × IntDict) : IntDict × IntDict :=
  plays.foldl (scoringStep home_id away_id) st

/-- Python `sorted(set(l))`: the distinct elements in ascending order. -/
def pySortedSet (l : List Int) : List Int :=
  List.insertionSort (· ≤ ·) l.dedup

/-- The per-quarter summary portion of `_map_scoring(payload, header_obj)`:
line-score totals when any exist, otherwise (and only when scoring plays
exist) totals reconstructed by replaying the scoring events. -/
def map_scoring_summary (payload : Payload) (header_obj : Header) : List QuarterScoring :=
  let header := payload.header.getD {}
  let comp := header.competitions.head?.getD {}
  let home_points_by_q := extract_linescore_points comp "home"
  let away_points_by_q := extract_linescore_points comp "away"
  let quarters := pySortedSet (dictKeys home_points_by_q ++ dictKeys away_points_by_q)
  let summary := quarters.map (fun q =>
    { quarter := q
      home_points := dictGetD home_points_by_q q 0
      away_points := dictGetD away_points_by_q q 0 : QuarterScoring })
  if summary.isEmpty && !payload.scoringPlays.isEmpty then
    let st := scoringFold header_obj.home_team.id header_obj.away_team.id payload.scoringPlays ([], [])
    let quarters2 := pySortedSet (dictKeys st.1 ++ dictKeys st.2)
    quarters2.map (fun q =>
      { quarter := q
        home_points := dictGetD st.1 q 0
        away_points := dictGetD st.2 q 0 : QuarterScoring })
  else summary

/-- Side, quarter and points of a scoring play exactly when the fallback
loop would record it: int quarter, int points, and a team id equal to
the home id (side `true`) or else the away id (side `false`). -/
def playSideQP (home_id away_id : String) (p : ScoringPlayRaw) : Option (Bool × Int × Int) :=
  match scoringPlayQuarter p with
  | none => none
  | some q =>
    match scoringPlayPoints p with
    | none => none
    | some pts =>
      if scoringPlayTeamId p = home_id then some (true, q, pts)
      else if scoringPlayTeamId p = away_id then some (false, q, pts)
      else none

/-- Sum of the point values of the recorded plays of one side in one
quarter. -/
def sideContrib (home_id away_id : String) (isHome : Bool) (plays : List ScoringPlayRaw)
    (q : Int) : Int :=
  (((plays.filterMap (playSideQP home_id away_id)).filter
      (fun t => t.1 = isHome && t.2.1 = q)).map (fun t => t.2.2)).sum

/-- Quarters in which some play was recorded for either side. -/
def observedQuarters (home_id away_id : String) (plays : List ScoringPlayRaw) : List Int :=
  (plays.filterMap (playSideQP home_id away_id)).map (fun t => t.2.1)

/-- Lookup in a one-step-extended dict. -/
theorem dictGetD_cons (k3 v3 : Int) (t : IntDict) (k2 : Int) :
    dictGetD ((k3, v3) :: t) k2 0 = if k3 = k2 then v3 else dictGetD t k2 0 := by
  by_cases h : k3 = k2
  · simp [dictGetD, dictLookup, List.find?_cons_of_pos, h]
  · rw [if_neg h]
    simp only [dictGetD, dictLookup]
    rw [List.find?_cons_of_neg]
    simp [h]

/-- Lookup after a set: the set key reads back the written value and all
other keys are unchanged. -/
theorem dictGetD_set (d : IntDict) (k v k2 : Int) :
    dictGetD (dictSet d k v) k2 0 = if k2 = k then v else dictGetD d k2 0 := by
  induction d with
  | nil =>
    simp only [dictSet]
    rw [dictGetD_cons]
    by_cases h : k2 = k
    · subst h; simp
    · rw [if_neg (fun hx => h hx.symm), if_neg h]
  | cons p rest ih =>
    obtain ⟨k3, v3⟩ := p
    simp only [dictSet]
    by_cases h3 : k3 = k
    · subst h3
      rw [if_pos rfl, dictGetD_cons, dictGetD_cons]
      by_cases h : k3 = k2
      · subst h; simp
      · rw [if_neg h, if_neg (fun hx => h hx.symm), if_neg h]
    · rw [if_neg h3, dictGetD_cons, dictGetD_cons]
      rcases eq_or_ne k3 k2 with h | h
      · subst h
        have hne : ¬(k3 = k) := h3
        simp [hne, fun hx => hne (hx : k3 = k)]
      · rw [if_neg h, if_neg h, ih]

/-- Keys after a set: the key set gains the written key. -/
theorem dictKeys_set_toFinset (d : IntDict) (k v : Int) :
    (dictKeys (dictSet d k v)).toFinset = insert k (dictKeys d).toFinset := by
  induction d with
  | nil => simp [dictSet, dictKeys]
  | cons p rest ih =>
    obtain ⟨k3, v3⟩ := p
    simp only [dictSet]
    by_cases h3 : k3 = k
    · subst h3
      simp [dictKeys]
    · simp only [if_neg h3, dictKeys, List.map_cons, List.toFinset_cons] at ih ⊢
      rw [ih, Finset.Insert.comm]


/-- Quarters of the recorded plays of one side. -/
def sideQuarters (home_id away_id : String) (isHome : Bool) (plays : List ScoringPlayRaw) :
    List Int :=
  ((plays.filterMap (playSideQP home_id away_id)).filter (fun t => t.1 = isHome)).map
    (fun t => t.2.1)

/-- The fallback loop body records exactly the plays classified by
`playSideQP`. -/
theorem scoringStep_eq (hid aid : String) (st : IntDict × IntDict) (p : ScoringPlayRaw) :
    scoringStep hid aid st p =
      match playSideQP hid aid p with
      | none => st
      | some (true, q, pts) => (dictSet st.1 q (dictGetD st.1 q 0 + pts), st.2)
      | some (false, q, pts) => (st.1, dictSet st.2 q (dictGetD st.2 q 0 + pts)) := by
  unfold scoringStep playSideQP
  cases scoringPlayQuarter p with
  | none => rfl
  | some q =>
    cases scoringPlayPoints p with
    | none => rfl
    | some pts =>
      dsimp only
      by_cases h1 : scoringPlayTeamId p = hid
      · rw [if_pos h1, if_pos h1]
      · rw [if_neg h1, if_neg h1]
        by_cases h2 : scoringPlayTeamId p = aid
        · rw [if_pos h2, if_pos h2]
        · rw [if_neg h2, if_neg h2]

/-- Head expansion of a per-side per-quarter contribution sum. -/
theorem sideContrib_cons (hid aid : String) (isHome : Bool) (p : ScoringPlayRaw)
    (rest : List ScoringPlayRaw) (q : Int) :
    sideContrib hid aid isHome (p :: rest) q =
      (match playSideQP hid aid p with
       | some t => if t.1 = isHome ∧ t.2.1 = q then t.2.2 else 0
       | none => 0) + sideContrib hid aid isHome rest q := by
  simp only [sideContrib, List.filterMap_cons]
  cases playSideQP hid aid p with
  | none => simp
  | some t =>
    by_cases h : t.1 = isHome ∧ t.2.1 = q
    · have hb : (decide (t.1 = isHome) && decide (t.2.1 = q)) = true := by
        simp [h.1, h.2]
      simp [List.filter_cons, hb, h]
    · have hb : (decide (t.1 = isHome) && decide (t.2.1 = q)) = false := by
        by_cases h1 : t.1 = isHome
        · have h2 : ¬(t.2.1 = q) := fun hx => h ⟨h1, hx⟩
          simp [h2]
        · simp [h1]
      simp [List.filter_cons, hb, h]

/-- Head expansion of a per-side quarter list. -/
theorem sideQuarters_cons (hid aid : String) (isHome : Bool) (p : ScoringPlayRaw)
    (rest : List ScoringPlayRaw) :
    sideQuarters hid aid isHome (p :: rest) =
      (match playSideQP hid aid p with
       | some t => if t.1 = isHome then [t.2.1] else []
       | none => []) ++ sideQuarters hid aid isHome rest := by
  simp only [sideQuarters, List.filterMap_cons]
  cases playSideQP hid aid p with
  | none => simp
  | some t =>
    by_cases h : t.1 = isHome <;> simp [List.filter_cons, h]

/-- After replaying the scoring events from accumulators `th`/`ta`, each
side's per-quarter lookup equals its initial value plus the sum of the
recorded point values of that side in that quarter. -/
theorem scoringFold_getD (hid aid : String) (plays : List ScoringPlayRaw) :
    ∀ th ta q,
      dictGetD (scoringFold hid aid plays (th, ta)).1 q 0 =
        dictGetD th q 0 + sideContrib hid aid true plays q ∧
      dictGetD (scoringFold hid aid plays (th, ta)).2 q 0 =
        dictGetD ta q 0 + sideContrib hid aid false plays q := by
  induction plays with
  | nil => intro th ta q; simp [scoringFold, sideContrib]
  | cons p rest ih =>
    intro th ta q
    have hstep : scoringFold hid aid (p :: rest) (th, ta) =
        scoringFold hid aid rest (scoringStep hid aid (th, ta) p) := rfl
    rw [hstep, scoringStep_eq]
    rw [sideContrib_cons, sideContrib_cons]
    cases hps : playSideQP hid aid p with
    | none =>
      have h1 := ih th ta q
      constructor
      · rw [h1.1]; dsimp only; omega
      · rw [h1.2]; dsimp only; omega
    | some t =>
      obtain ⟨side, q2, pts⟩ := t
      cases side with
      | true =>
        have h1 := ih (dictSet th q2 (dictGetD th q2 0 + pts)) ta q
        constructor
        · rw [h1.1, dictGetD_set]
          dsimp only
          by_cases hq : q = q2
          · subst hq
            simp <;> omega
          · have hq2 : ¬(q2 = q) := fun hx => hq hx.symm
            simp [hq, hq2] <;> omega
        · rw [h1.2]; dsimp only; simp <;> omega
      | false =>
        have h1 := ih th (dictSet ta q2 (dictGetD ta q2 0 + pts)) q
        constructor
        · rw [h1.1]; dsimp only; simp <;> omega
        · rw [h1.2, dictGetD_set]
          dsimp only
          by_cases hq : q = q2
          · subst hq
            simp <;> omega
          · have hq2 : ¬(q2 = q) := fun hx => hq hx.symm
            simp [hq, hq2] <;> omega

/-- After replaying the scoring events, each side's key set is its initial
key set united with the quarters recorded for that side. -/
theorem scoringFold_keys (hid aid : String) (plays : List ScoringPlayRaw) :
    ∀ th ta,
      (dictKeys (scoringFold hid aid plays (th, ta)).1).toFinset =
        (dictKeys th).toFinset ∪ (sideQuarters hid aid true plays).toFinset ∧
      (dictKeys (scoringFold hid aid plays (th, ta)).2).toFinset =
        (dictKeys ta).toFinset ∪ (sideQuarters hid aid false plays).toFinset := by
  induction plays with
  | nil => intro th ta; simp [scoringFold, sideQuarters]
  | cons p rest ih =>
    intro th ta
    have hstep : scoringFold hid aid (p :: rest) (th, ta) =
        scoringFold hid aid rest (scoringStep hid aid (th, ta) p) := rfl
    rw [hstep, scoringStep_eq]
    rw [sideQuarters_cons, sideQuarters_cons]
    cases hps : playSideQP hid aid p with
    | none =>
      have h1 := ih th ta
      simpa using h1
    | some t =>
      obtain ⟨side, q2, pts⟩ := t
      cases side with
      | true =>
        have h1 := ih (dictSet th q2 (dictGetD th q2 0 + pts)) ta
        constructor
        · rw [h1.1, dictKeys_set_toFinset]
          dsimp only
          simp [Finset.insert_union, Finset.union_insert, List.toFinset_append]
        · rw [h1.2]; dsimp only; simp
      | false =>
        have h1 := ih th (dictSet ta q2 (dictGetD ta q2 0 + pts))
        constructor
        · rw [h1.1]; dsimp only; simp
        · rw [h1.2, dictKeys_set_toFinset]
          dsimp only
          simp [Finset.insert_union, Finset.union_insert, List.toFinset_append]

/-- The two per-side quarter sets together are the observed quarters. -/
theorem sideQuarters_union (hid aid : String) (plays : List ScoringPlayRaw) :
    (sideQuarters hid aid true plays).toFinset ∪ (sideQuarters hid aid false plays).toFinset =
      (observedQuarters hid aid plays).toFinset := by
  ext x
  simp only [Finset.mem_union, List.mem_toFinset, sideQuarters, observedQuarters,
    List.mem_map, List.mem_filter, List.mem_filterMap]
  constructor
  · rintro (⟨t, ⟨⟨p, hp, hrec⟩, hside⟩, hq⟩ | ⟨t, ⟨⟨p, hp, hrec⟩, hside⟩, hq⟩) <;>
      exact ⟨t, ⟨p, hp, hrec⟩, hq⟩
  · rintro ⟨t, ⟨p, hp, hrec⟩, hq⟩
    cases hside : t.1 with
    | true => exact Or.inl ⟨t, ⟨⟨p, hp, hrec⟩, by simp [hside]⟩, hq⟩
    | false => exact Or.inr ⟨t, ⟨⟨p, hp, hrec⟩, by simp [hside]⟩, hq⟩

/-- With no line-score entries on any competitor, the line-score
extraction is empty. -/
theorem extract_linescore_points_empty (comp : CompRaw) (side : String)
    (h : ∀ c ∈ comp.competitors, c.linescores = []) :
    extract_linescore_points comp side = [] := by
  unfold extract_linescore_points
  cases hf : comp.competitors.find? (fun c => flagLower c = side) with
  | none => rfl
  | some c =>
    have hc : c ∈ comp.competitors := List.mem_of_find?_eq_some hf
    dsimp only
    rw [h c hc]
    rfl


/-- Two lists with the same element set have the same sorted
deduplication. -/
theorem pySortedSet_eq_of_toFinset_eq {l1 l2 : List Int} (h : l1.toFinset = l2.toFinset) :
    pySortedSet l1 = pySortedSet l2 := by
  have hperm : List.Perm l1.dedup l2.dedup := List.toFinset_eq_iff_perm_dedup.mp h
  exact List.eq_of_perm_of_sorted
    ((List.perm_insertionSort _ _).trans (hperm.trans (List.perm_insertionSort _ _).symm))
    (List.sorted_insertionSort _ _) (List.sorted_insertionSort _ _)

/-- A sorted deduplication is strictly ascending. -/
theorem pySortedSet_sorted_lt (l : List Int) : List.Sorted (· < ·) (pySortedSet l) := by
  have hs : List.Sorted (· ≤ ·) (pySortedSet l) := List.sorted_insertionSort _ _
  have hnd : (pySortedSet l).Nodup :=
    (List.perm_insertionSort _ _).nodup_iff.mpr (List.nodup_dedup l)
  exact hs.lt_of_le hnd

/-- Claim C5 (confirmed): for a payload with no line-score entries for
either competitor and a non-empty scoring-plays list, the per-quarter
summary equals the per-side sum of each recorded scoring event's point
value grouped by period (events whose team id matches neither side
contribute nothing), listed in strictly ascending quarter order with
exactly one entry per distinct quarter observed. -/
theorem c5_quarter_summary_fallback (payload : Payload) (hdr : Header)
    (hnols : ∀ c ∈ ((payload.header.getD {}).competitions.head?.getD {}).competitors,
      c.linescores = [])
    (hplays : payload.scoringPlays ≠ []) :
    map_scoring_summary payload hdr =
      (pySortedSet (observedQuarters hdr.home_team.id hdr.away_team.id payload.scoringPlays)).map
        (fun q =>
          { quarter := q
            home_points := sideContrib hdr.home_team.id hdr.away_team.id true payload.scoringPlays q
            away_points :=
              sideContrib hdr.home_team.id hdr.away_team.id false payload.scoringPlays q :
            QuarterScoring }) ∧
    List.Sorted (· < ·) ((map_scoring_summary payload hdr).map QuarterScoring.quarter) := by
  have hH := extract_linescore_points_empty
    ((payload.header.getD {}).competitions.head?.getD {}) "home" hnols
  have hA := extract_linescore_points_empty
    ((payload.header.getD {}).competitions.head?.getD {}) "away" hnols
  have hpe : payload.scoringPlays.isEmpty = false := by
    cases hp : payload.scoringPlays with
    | nil => exact absurd hp hplays
    | cons a l => rfl
  have hkeys := scoringFold_keys hdr.home_team.id hdr.away_team.id payload.scoringPlays [] []
  have hget := scoringFold_getD hdr.home_team.id hdr.away_team.id payload.scoringPlays [] []
  have hsetEq :
      (dictKeys (scoringFold hdr.home_team.id hdr.away_team.id payload.scoringPlays
          ([], [])).1 ++
        dictKeys (scoringFold hdr.home_team.id hdr.away_team.id payload.scoringPlays
          ([], [])).2).toFinset =
      (observedQuarters hdr.home_team.id hdr.away_team.id payload.scoringPlays).toFinset := by
    rw [List.toFinset_append, hkeys.1, hkeys.2]
    simp only [dictKeys, List.map_nil, List.toFinset_nil, Finset.empty_union]
    exact sideQuarters_union _ _ _
  have hmain : map_scoring_summary payload hdr =
      (pySortedSet (observedQuarters hdr.home_team.id hdr.away_team.id payload.scoringPlays)).map
        (fun q =>
          { quarter := q
            home_points := dictGetD (scoringFold hdr.home_team.id hdr.away_team.id
              payload.scoringPlays ([], [])).1 q 0
            away_points := dictGetD (scoringFold hdr.home_team.id hdr.away_team.id
              payload.scoringPlays ([], [])).2 q 0 : QuarterScoring }) := by
    simp only [map_scoring_summary]
    rw [hH, hA]
    have hps0 : pySortedSet (dictKeys [] ++ dictKeys []) = [] := rfl
    rw [hps0]
    simp only [List.map_nil, List.isEmpty_nil, hpe, Bool.not_false, Bool.and_self, if_true]
    rw [pySortedSet_eq_of_toFinset_eq hsetEq]
  refine ⟨?_, ?_⟩
  · rw [hmain]
    apply List.map_congr_left
    intro q hq
    have h1 := (hget q).1
    have h2 := (hget q).2
    have hz : dictGetD ([] : IntDict) q 0 = 0 := rfl
    rw [hz, zero_add] at h1 h2
    simp [h1, h2]
  · rw [hmain, List.map_map]
    have hcomp : (QuarterScoring.quarter ∘ fun q =>
        ({ quarter := q
           home_points := dictGetD (scoringFold hdr.home_team.id hdr.away_team.id
             payload.scoringPlays ([], [])).1 q 0
           away_points := dictGetD (scoringFold hdr.home_team.id hdr.away_team.id
             payload.scoringPlays ([], [])).2 q 0 : QuarterScoring })) = id := rfl
    rw [hcomp, List.map_id]
    exact pySortedSet_sorted_lt _

/-- Concrete scoring payload of the C5 example: no line scores, three
scoring events (Q1 home TD worth 7, Q1 away FG worth 3, Q2 home FG worth
3). -/
def c5Payload : Payload :=
  { header := some { competitions := [ {
      competitors := [
        { homeAway := some "home", team := some { id := some (.sStr "12") } },
        { homeAway := some "away", team := some { id := some (.sStr "8") } } ] } ] }
    scoringPlays := [
      { team := some { id := some (.sStr "12") }, period := some { number := some (.sInt 1) }
        scoreValue := some (.sInt 7) },
      { team := some { id := some (.sStr "8") }, period := some { number := some (.sInt 1) }
        scoreValue := some (.sInt 3) },
      { team := some { id := some (.sStr "12") }, period := some { number := some (.sInt 2) }
        scoreValue := some (.sInt 3) } ] }

/-- A header whose home id is "12" and away id is "8". -/
def c5Header : Header :=
  { game_id := "g", league := "NFL", season := 2025, week := none, status := "in"
    kickoff_time_utc := "", home_team := ⟨"12", "", "", "", none, 0⟩
    away_team := ⟨"8", "", "", "", none, 0⟩, quarter := none, clock := none, possession := none
    down := none, distance := none, yard_line := none, red_zone := false, home_timeouts := none
    away_timeouts := none, last_play_short := none, last_updated_utc := "" }

/-- Witness for C5: the example payload derives the quarter list
[(1, 7, 3), (2, 3, 0)]. -/
theorem c5_quarter_summary_fallback_witness :
    map_scoring_summary c5Payload c5Header =
      [⟨1, 7, 3⟩, ⟨2, 3, 0⟩] := by
  have h := (c5_quarter_summary_fallback c5Payload c5Header (by decide) (by decide)).1
  rw [h]
  decide


/-! ## Team statistics (app/main.py, `_parse_team_statistics`) -/

/-- Output record of `_parse_team_statistics` (app/schemas.py `TeamStats`);
mutable in the source, threaded as a fold state here. -/
structure TeamStats where
  total_yards : Option Int := none
  plays : Option Int := none
  yards_per_play : Option ℚ := none
  passing_yards : Option Int := none
  rushing_yards : Option Int := none
  turnovers : Option Int := none
  penalties : Option Int := none
  penalty_yards : Option Int := none
  third_down_made : Option Int := none
  third_down_attempts : Option Int := none
  red_zone_trips : Option Int := none
  red_zone_tds : Option Int := none
  time_of_possession : Option String := none
  deriving DecidableEq, Repr

/-- One entry of a team-statistics list (`{"name": ..., "value": ...,
"displayValue": ...}`); `some .sNone` models a key present with a null
value. -/
structure StatItem where
  name : Option String := none
  value : Option PyVal := none
  displayValue : Option PyVal := none
  deriving DecidableEq, Repr

/-- `s.get("value", s.get("displayValue"))`. -/
def statEffValue (s : StatItem) : Option PyVal :=
  match s.value with
  | some v => some v
  | none => s.displayValue

/-- One iteration of `_parse_team_statistics`: dispatch on the stat name;
a failed numeric conversion abandons the rest of that branch (keeping
any assignment already made, as the mutation before the raised
`ValueError` persists) and moves on to the next stat. -/
def parse_team_statistics_step (st : TeamStats) (s : StatItem) : TeamStats :=
  match statEffValue s with
  | none => st
  | some v =>
    if v = .sNone ∨ v = .sStr "" then st
    else
      let value_str := pyStrOf v
      let nm := s.name
      if nm = some "totalYards" then
        match pyIntOf v with
        | some n => { st with total_yards := some n }
        | none => st
      else if nm = some "totalPlays" ∨ nm = some "plays" then
        match pyIntOf v with
        | some n => { st with plays := some n }
        | none => st
      else if nm = some "yardsPerPlay" then
        match pyFloatOf v with
        | some x => { st with yards_per_play := some x }
        | none => st
      else if nm = some "passingYards" ∨ nm = some "netPassingYards" then
        match pyIntOf v with
        | some n => { st with passing_yards := some n }
        | none => st
      else if nm = some "rushingYards" then
        match pyIntOf v with
        | some n => { st with rushing_yards := some n }
        | none => st
      else if nm = some "turnovers" then
        match pyIntOf v with
        | some n => { st with turnovers := some n }
        | none => st
      else if nm = some "totalPenaltiesYards" ∨ nm = some "totalPenalties" then
        match splitOnChar '-' (stripSpaces value_str) with
        | [a, b] =>
          match pyIntOfStr a with
          | none => st
          | some pa =>
            match pyIntOfStr b with
            | none => { st with penalties := some pa }
            | some pb => { st with penalties := some pa, penalty_yards := some pb }
        | _ => st
      else if nm = some "thirdDownEff" ∨ nm = some "thirdDownEfficiency" then
        match splitOnChar '-' (stripSpaces value_str) with
        | [a, b] =>
          match pyIntOfStr a with
          | none => st
          | some pa =>
            match pyIntOfStr b with
            | none => { st with third_down_made := some pa }
            | some pb => { st with third_down_made := some pa, third_down_attempts := some pb }
        | _ => st
      else if nm = some "redZoneEff" ∨ nm = some "redZoneEfficiency" then
        match splitOnChar '-' (stripSpaces value_str) with
        | [a, b] =>
          match pyIntOfStr a with
          | none => st
          | some pa =>
            match pyIntOfStr b with
            | none => { st with red_zone_tds := some pa }
            | some pb => { st with red_zone_tds := some pa, red_zone_trips := some pb }
        | _ => st
      else if nm = some "timeOfPossession" ∨ nm = some "possessionTime" then
        { st with time_of_possession := some value_str }
      else st

/-- `_parse_team_statistics(stats_list)`. -/
def parse_team_statistics (stats_list : List StatItem) : TeamStats :=
  stats_list.foldl parse_team_statistics_step {}

/-- Claim C7 counterexample: the malformed composite "5-x" (hyphen
present, second half unparseable) sets penalties = 5 while leaving
penalty_yards unset — the claim demands that a malformed composite is
skipped entirely, never setting one half without the other. -/
theorem c7_counterexample :
    (parse_team_statistics
      [ { name := some "totalPenaltiesYards", value := some (.sStr "5-x") } ]).penalties =
        some 5 ∧
    (parse_team_statistics
      [ { name := some "totalPenaltiesYards", value := some (.sStr "5-x") } ]).penalty_yards =
        none := by
  decide

/-- Claim C7 (amended): composite made-attempted fields split on a
literal hyphen into exactly two integers — "5-45" yields penalties = 5
and penaltyYards = 45 and a value without a hyphen such as "5" leaves
both halves unset; a composite whose first half fails to parse is
skipped entirely, while one whose first half parses and second half does
not sets the first half only; and a statistic whose processing changes
nothing never blocks extraction of the other statistics in the same
record. -/
theorem c7_composite_parsing :
    (parse_team_statistics [ { name := some "totalPenaltiesYards", value := some (.sStr "5-45") } ] =
        { penalties := some 5, penalty_yards := some 45 } ∧
      parse_team_statistics [ { name := some "totalPenaltiesYards", value := some (.sStr "5") } ] =
        {}) ∧
    (∀ (st : TeamStats) (v : PyVal) (a b : String) (pa pb : Int),
      ¬(v = .sNone ∨ v = .sStr "") →
      splitOnChar '-' (stripSpaces (pyStrOf v)) = [a, b] →
      pyIntOfStr a = some pa → pyIntOfStr b = some pb →
      parse_team_statistics_step st { name := some "totalPenaltiesYards", value := some v } =
        { st with penalties := some pa, penalty_yards := some pb } ∧
      parse_team_statistics_step st { name := some "thirdDownEff", value := some v } =
        { st with third_down_made := some pa, third_down_attempts := some pb } ∧
      parse_team_statistics_step st { name := some "redZoneEff", value := some v } =
        { st with red_zone_tds := some pa, red_zone_trips := some pb }) ∧
    (∀ (st : TeamStats) (v : PyVal) (a b : String) (pa : Int),
      ¬(v = .sNone ∨ v = .sStr "") →
      splitOnChar '-' (stripSpaces (pyStrOf v)) = [a, b] →
      pyIntOfStr a = some pa → pyIntOfStr b = none →
      parse_team_statistics_step st { name := some "totalPenaltiesYards", value := some v } =
        { st with penalties := some pa }) ∧
    (∀ (st : TeamStats) (v : PyVal) (a b : String),
      ¬(v = .sNone ∨ v = .sStr "") →
      splitOnChar '-' (stripSpaces (pyStrOf v)) = [a, b] →
      pyIntOfStr a = none →
      parse_team_statistics_step st { name := some "totalPenaltiesYards", value := some v } =
        st) ∧
    (∀ (xs ys : List StatItem) (item : StatItem),
      (∀ st : TeamStats, parse_team_statistics_step st item = st) →
      parse_team_statistics (xs ++ item :: ys) = parse_team_statistics (xs ++ ys)) := by
  refine ⟨⟨by decide, by decide⟩, ?_, ?_, ?_, ?_⟩
  · intro st v a b pa pb hnn hsplit ha hb
    refine ⟨?_, ?_, ?_⟩ <;>
      simp [parse_team_statistics_step, statEffValue, if_neg hnn, hsplit, ha, hb]
  · intro st v a b pa hnn hsplit ha hb
    simp [parse_team_statistics_step, statEffValue, if_neg hnn, hsplit, ha, hb]
  · intro st v a b hnn hsplit ha
    simp [parse_team_statistics_step, statEffValue, if_neg hnn, hsplit, ha]
  · intro xs ys item hid
    simp only [parse_team_statistics, List.foldl_append, List.foldl_cons, hid]

/-- Witness for C7 (amended): a third-down composite with an unparseable
first half changes nothing, so the statistics around it parse as if it
were absent. -/
theorem c7_composite_parsing_witness :
    parse_team_statistics
      [ { name := some "totalYards", value := some (.sInt 350) },
        { name := some "thirdDownEff", value := some (.sStr "x-4") },
        { name := some "rushingYards", value := some (.sInt 120) } ] =
    parse_team_statistics
      [ { name := some "totalYards", value := some (.sInt 350) },
        { name := some "rushingYards", value := some (.sInt 120) } ] := by
  exact c7_composite_parsing.2.2.2.2
    [ { name := some "totalYards", value := some (.sInt 350) } ]
    [ { name := some "rushingYards", value := some (.sInt 120) } ]
    { name := some "thirdDownEff", value := some (.sStr "x-4") }
    (fun st => rfl)


/-! ## Scoreboard competitor mapping (app/services/scoreboard.py) -/

/-- One element of a team's `logos` array. -/
structure LogoRaw where
  href : Option String := none
  deriving DecidableEq, Repr

/-- Nested `team` object of a scoreboard competitor. -/
structure SbTeamRaw where
  id : Option String := none
  displayName : Option String := none
  name : Option String := none
  shortDisplayName : Option String := none
  abbreviation : Option String := none
  color : Option String := none
  logo : Option String := none
  logos : Option (List LogoRaw) := none
  deriving DecidableEq, Repr

/-- A raw scoreboard competitor (`raw["team"]` is a required key). -/
structure SbCompetitorRaw where
  team : SbTeamRaw
  record : Option (List RecordEntry) := none
  rank : Option Int := none
  homeAway : Option String := none
  score : Option PyVal := none
  deriving DecidableEq, Repr

/-- Output `Team` model (app/models/schemas.py). -/
structure Team where
  id : String
  name : String
  nickname : Option String
  abbreviation : Option String
  color : Option String
  logo : Option String
  record : Option String
  rank : Option Int
  deriving DecidableEq, Repr

/-- Output `Competitor` model; `homeAway` is validated against the
closed literal set home/away. -/
structure Competitor where
  team : Team
  homeAway : String
  score : Option Int
  deriving DecidableEq, Repr

/-- The score expression of `_map_competitor`:
`int(raw["score"]) if (s := raw.get("score")) and str(s).isdigit() else None`.
The guard requires a truthy value whose `str` image is all digits, so
the conversion in the then-branch always succeeds. -/
def map_competitor_score (score : Option PyVal) : Option Int :=
  match score with
  | some s => if pyTruthy s && pyStrIsDigit s then pyIntOf s else none
  | none => none

/-- `_map_competitor(raw)`: build the output competitor; a pydantic
validation failure (missing team name, missing or out-of-vocabulary
homeAway flag) is modelled as an error, which the caller's route handler
surfaces as a gateway failure. -/
def map_competitor (raw : SbCompetitorRaw) : Except String Competitor :=
  let t := raw.team
  let logoFromList : Option (List LogoRaw) → Option String := fun ls =>
    match ls with
    | some (l0 :: _) => l0.href
    | _ => none
  let logo : Option String :=
    match t.logo with
    | some s => if s ≠ "" then some s else logoFromList t.logos
    | none => logoFromList t.logos
  let record : Option String :=
    match raw.record with
    | some (e :: _) => e.summary
    | _ => none
  match pyOrStr t.displayName t.name with
  | none => .error "competitor team name failed validation"
  | some nmv =>
    match raw.homeAway with
    | some ha =>
      if ha = "home" ∨ ha = "away" then
        .ok
          { team :=
              { id := t.id.getD ""
                name := nmv
                nickname := t.shortDisplayName
                abbreviation := t.abbreviation
                color := t.color
                logo := logo
                record := record
                rank := raw.rank }
            homeAway := ha
            score := map_competitor_score raw.score }
      else .error "competitor homeAway failed validation"
    | none => .error "competitor homeAway failed validation"

/-- `_pick_score(*values)`: first usable numeric score; bools are
skipped, numbers are truncated to int, digit strings parsed, then
float-like strings truncated; 0 when nothing is usable. -/
def pick_score : List PyVal → Int
  | [] => 0
  | v :: rest =>
    match v with
    | .sBool _ => pick_score rest
    | .sInt n => n
    | .sStr s =>
      let s2 := strStrip s
      if isDigitStr s2 then (digitsVal s2.data : Int)
      else
        match intOfFloatStr s2 with
        | some n => n
        | none => pick_score rest
    | .sNone => pick_score rest

/-- Whether one `_pick_score` candidate is usable. -/
def pickUsable : PyVal → Bool
  | .sBool _ => false
  | .sInt _ => true
  | .sStr s => isDigitStr (strStrip s) || (intOfFloatStr (strStrip s)).isSome
  | .sNone => false

/-- A raw competitor with a valid team and the unparseable score "TBD". -/
def c8TbdCompetitor : SbCompetitorRaw :=
  { team := { id := some "1", displayName := some "Team A" }
    homeAway := some "home"
    score := some (.sStr "TBD") }

/-- Claim C8 counterexample: the scoreboard Team/Competitor Mapper maps
the unparseable score "TBD" to null, not to the 0 the claim demands
(and no dict value/displayValue lookup is attempted on the cited
functions). -/
theorem c8_counterexample :
    map_competitor_score (some (.sStr "TBD")) = none ∧
    (map_competitor c8TbdCompetitor).toOption.map Competitor.score = some none := by
  decide

/-- Claim C8 (amended): the scoreboard competitor mapper accepts a score
exactly when it is truthy and its str() image is all digits, yielding
that integer, and yields null (not 0) otherwise; the CFBD `_pick_score`
helper tries each candidate in order — bools skipped, ints accepted,
digit strings parsed, float-like strings truncated — and yields 0 when
no candidate is usable; and the competitor's score field is exactly this
coercion of the raw score. -/
theorem c8_score_coercion :
    (∀ v : PyVal,
      (pyTruthy v = true ∧ pyStrIsDigit v = true →
        map_competitor_score (some v) = pyIntOf v) ∧
      (pyTruthy v = false ∨ pyStrIsDigit v = false →
        map_competitor_score (some v) = none)) ∧
    map_competitor_score none = none ∧
    pick_score [] = 0 ∧
    (∀ v rest, pickUsable v = false → pick_score (v :: rest) = pick_score rest) ∧
    (∀ n rest, pick_score (.sInt n :: rest) = n) ∧
    (∀ s rest, isDigitStr (strStrip s) = true →
      pick_score (.sStr s :: rest) = (digitsVal (strStrip s).data : Int)) ∧
    (∀ s n rest, isDigitStr (strStrip s) = false → intOfFloatStr (strStrip s) = some n →
      pick_score (.sStr s :: rest) = n) ∧
    (∀ vs, (∀ v ∈ vs, pickUsable v = false) → pick_score vs = 0) ∧
    (∀ raw c, map_competitor raw = .ok c → c.score = map_competitor_score raw.score) := by
  refine ⟨?_, rfl, rfl, ?_, fun n rest => rfl, ?_, ?_, ?_, ?_⟩
  · intro v
    constructor
    · intro ⟨h1, h2⟩
      simp [map_competitor_score, h1, h2]
    · intro h
      rcases h with h | h <;> simp [map_competitor_score, h]
  · intro v rest h
    cases v with
    | sBool b => rfl
    | sInt n => simp [pickUsable] at h
    | sStr s =>
      simp only [pickUsable, Bool.or_eq_false_iff] at h
      simp only [pick_score, h.1, if_false]
      cases hf : intOfFloatStr (strStrip s) with
      | none => rfl
      | some n => rw [hf] at h; simp at h
    | sNone => rfl
  · intro s rest h
    simp [pick_score, h]
  · intro s n rest h1 h2
    simp [pick_score, h1, h2]
  · intro vs hall
    induction vs with
    | nil => rfl
    | cons v rest ih =>
      have hv := hall v (List.mem_cons_self v rest)
      have hrest := ih (fun w hw => hall w (List.mem_cons_of_mem v hw))
      cases v with
      | sBool b => simpa [pick_score] using hrest
      | sInt n => simp [pickUsable] at hv
      | sStr s =>
        simp only [pickUsable, Bool.or_eq_false_iff] at hv
        simp only [pick_score, hv.1, if_false]
        cases hf : intOfFloatStr (strStrip s) with
        | none => exact hrest
        | some n => rw [hf] at hv; simp at hv
      | sNone => simpa [pick_score] using hrest
  · intro raw c hok
    simp only [map_competitor] at hok
    cases hnm : pyOrStr raw.team.displayName raw.team.name with
    | none => rw [hnm] at hok; simp at hok
    | some nmv =>
      rw [hnm] at hok
      cases hha : raw.homeAway with
      | none => rw [hha] at hok; simp at hok
      | some ha =>
        rw [hha] at hok
        dsimp only at hok
        by_cases hv : ha = "home" ∨ ha = "away"
        · rw [if_pos hv] at hok
          injection hok with hh
          subst hh
          rfl
        · rw [if_neg hv] at hok
          simp at hok

/-- Witness for C8 (amended): an all-unusable candidate list yields 0,
and a digit-string score is accepted. -/
theorem c8_score_coercion_witness :
    pick_score [.sNone, .sBool true, .sStr "n/a"] = 0 ∧
    map_competitor_score (some (.sStr "21")) = pyIntOf (.sStr "21") := by
  constructor
  · exact c8_score_coercion.2.2.2.2.2.2.2.1 [.sNone, .sBool true, .sStr "n/a"] (by decide)
  · exact (c8_score_coercion.1 (.sStr "21")).1 (by decide)


/-! ## Scoreboard parsing and CFBD scoreboard building
(app/services/scoreboard.py, `parse_scoreboard` and
`_build_cfb_scoreboard_from_cfbd`) -/

/-- `status.type` of a scoreboard event (`description` is a required
key). -/
structure SbEventStatusType where
  description : String
  deriving DecidableEq, Repr

/-- `status` of a scoreboard event. -/
structure SbEventStatus where
  type : SbEventStatusType
  deriving DecidableEq, Repr

/-- `venue` of a scoreboard competition. -/
structure SbVenueRaw where
  fullName : Option String := none
  deriving DecidableEq, Repr

/-- One competition of a scoreboard event. -/
structure SbCompetitionRaw where
  competitors : List SbCompetitorRaw := []
  venue : Option SbVenueRaw := none
  deriving DecidableEq, Repr

/-- One scoreboard event (`id`, `status.type.description` and
`competitions[0]` are accessed as required). -/
structure SbEventRaw where
  id : String
  date : Option String := none
  status : SbEventStatus
  competitions : List SbCompetitionRaw := []
  deriving DecidableEq, Repr

/-- Output `GameSummary` model (app/models/schemas.py). -/
structure GameSummary where
  id : String
  sport : String
  startTime : String
  status : String
  venue : Option String
  competitors : List Competitor
  deriving DecidableEq, Repr

/-- Map the competitors list through `_map_competitor`, aborting on the
first validation error (as the raised exception would). -/
def mapCompetitors : List SbCompetitorRaw → Except String (List Competitor)
  | [] => .ok []
  | c :: rest =>
    match map_competitor c with
    | .error err => .error err
    | .ok c2 =>
      match mapCompetitors rest with
      | .error err => .error err
      | .ok rest2 => .ok (c2 :: rest2)

/-- The per-event body of `parse_scoreboard`: sort competitors by their
homeAway string (a missing key raises), convert the start time to
Eastern when present, and map every competitor.  The timezone
conversion collaborator is passed in as `convert`. -/
def mapGameSummaryEvent (convert : String → String) (sport : String) (e : SbEventRaw) :
    Except String GameSummary :=
  match e.competitions with
  | [] => .error "competitions index out of range"
  | comp0 :: _ =>
    if comp0.competitors.all (fun c => c.homeAway.isSome) then
      let sortedComps := List.insertionSort
        (fun a b => pyStrLe (a.homeAway.getD "") (b.homeAway.getD "") = true) comp0.competitors
      let start_time : Option String :=
        match e.date with
        | none => none
        | some d => some (if d ≠ "" then convert d else d)
      match start_time with
      | none => .error "startTime failed validation"
      | some stv =>
        match mapCompetitors sortedComps with
        | .error err => .error err
        | .ok cs =>
          .ok
            { id := e.id
              sport := sport
              startTime := stv
              status := e.status.type.description
              venue := comp0.venue.bind (·.fullName)
              competitors := cs }
    else .error "homeAway key missing"

/-- `parse_scoreboard(sport, data)` over the decoded events list. -/
def parse_scoreboard (convert : String → String) (sport : String) :
    List SbEventRaw → Except String (List GameSummary)
  | [] => .ok []
  | e :: rest =>
    match mapGameSummaryEvent convert sport e with
    | .error err => .error err
    | .ok gs =>
      match parse_scoreboard convert sport rest with
      | .error err => .error err
      | .ok out => .ok (gs :: out)

/-- One row of the CFBD /games response, with every field name variant
the builder consults; `completed` is `none` for an absent or non-boolean
flag. -/
structure CfbRawGame where
  id : Option PyVal := none
  game_id : Option PyVal := none
  homeClassification : Option String := none
  awayClassification : Option String := none
  home_team : Option String := none
  homeTeam : Option String := none
  home_team_name : Option String := none
  home : Option String := none
  away_team : Option String := none
  awayTeam : Option String := none
  away_team_name : Option String := none
  away : Option String := none
  home_id : Option PyVal := none
  home_team_id : Option PyVal := none
  away_id : Option PyVal := none
  away_team_id : Option PyVal := none
  homePoints : Option PyVal := none
  home_points : Option PyVal := none
  homeScore : Option PyVal := none
  home_score : Option PyVal := none
  awayPoints : Option PyVal := none
  away_points : Option PyVal := none
  awayScore : Option PyVal := none
  away_score : Option PyVal := none
  status : Option String := none
  status_name : Option String := none
  completed : Option Bool := none
  venue : Option String := none
  venue_name : Option String := none
  homeRank : Option Int := none
  home_rank : Option Int := none
  awayRank : Option Int := none
  away_rank : Option Int := none
  startDate : Option String := none
  start_date : Option String := none
  startTime : Option String := none
  start_time : Option String := none
  game_date : Option String := none
  deriving DecidableEq, Repr

/-- `STATUS_LABELS.get(state, "Scheduled")`. -/
def cfbStatusLabel (state : String) : String :=
  if state = "pre" then "Scheduled"
  else if state = "in" then "In Progress"
  else if state = "post" then "Postgame"
  else if state = "halftime" then "Halftime"
  else if state = "final" then "Final"
  else if state = "delayed" then "Delayed"
  else if state = "canceled" then "Canceled"
  else "Scheduled"

/-- The per-game body of `_build_cfb_scoreboard_from_cfbd`: classification
filter, id and team-name extraction with schema-variant fallbacks, score
picking, status normalization, and assembly of the away-first competitor
pair.  The timezone conversion and logo lookup collaborators are passed
in as `convert` and `logoOf`; `none` models a `continue`. -/
def build_cfb_game (convert : String → String) (logoOf : String → Option String)
    (g : CfbRawGame) : Option GameSummary :=
  let home_class := strLower (g.homeClassification.getD "")
  let away_class := strLower (g.awayClassification.getD "")
  if home_class = "ii" ∨ home_class = "iii" ∨ home_class = "" ∨
      away_class = "ii" ∨ away_class = "iii" ∨ away_class = "" then none
  else
    let game_id := pyStrOrEmpty (pyOrVal g.id g.game_id)
    if game_id = "" then none
    else
      let hname := (pyOrStr g.home_team (pyOrStr g.homeTeam
        (pyOrStr g.home_team_name g.home))).getD ""
      let aname := (pyOrStr g.away_team (pyOrStr g.awayTeam
        (pyOrStr g.away_team_name g.away))).getD ""
      if hname = "" ∨ aname = "" then none
      else
        let home_team_id := (pyOrVal g.home_id (pyOrVal g.home_team_id
          (some (.sStr hname)))).getD (.sStr hname)
        let away_team_id := (pyOrVal g.away_id (pyOrVal g.away_team_id
          (some (.sStr aname)))).getD (.sStr aname)
        let home_points := pick_score
          [g.homePoints.getD .sNone, g.home_points.getD .sNone,
           g.homeScore.getD .sNone, g.home_score.getD .sNone]
        let away_points := pick_score
          [g.awayPoints.getD .sNone, g.away_points.getD .sNone,
           g.awayScore.getD .sNone, g.away_score.getD .sNone]
        let state := normalize_cfb_status (pyOrStr g.status g.status_name) g.completed
        let status_desc := cfbStatusLabel state
        let venueOut := pyOrStr g.venue g.venue_name
        let home_comp : Competitor :=
          { team :=
              { id := pyStrOf home_team_id, name := hname, nickname := none
                abbreviation := none, color := none, logo := logoOf hname
                record := none, rank := pyOrInt g.homeRank g.home_rank }
            homeAway := "home", score := some home_points }
        let away_comp : Competitor :=
          { team :=
              { id := pyStrOf away_team_id, name := aname, nickname := none
                abbreviation := none, color := none, logo := logoOf aname
                record := none, rank := pyOrInt g.awayRank g.away_rank }
            homeAway := "away", score := some away_points }
        let st0 := (pyOrStr g.startDate (pyOrStr g.start_date (pyOrStr g.startTime
          (pyOrStr g.start_time g.game_date)))).getD ""
        let start_time := if st0 ≠ "" then convert st0 else st0
        some
          { id := game_id
            sport := "college-football"
            startTime := start_time
            status := status_desc
            venue := venueOut
            competitors := [away_comp, home_comp] }

/-- The game loop of `_build_cfb_scoreboard_from_cfbd` over the fetched
rows. -/
def build_cfb_scoreboard_games (convert : String → String) (logoOf : String → Option String)
    (raw_games : List CfbRawGame) : List GameSummary :=
  raw_games.filterMap (build_cfb_game convert logoOf)


/-- A successfully mapped competitor carries exactly the raw homeAway
flag. -/
theorem map_competitor_homeAway (raw : SbCompetitorRaw) (c : Competitor)
    (hok : map_competitor raw = .ok c) : raw.homeAway = some c.homeAway := by
  simp only [map_competitor] at hok
  cases hnm : pyOrStr raw.team.displayName raw.team.name with
  | none => rw [hnm] at hok; simp at hok
  | some nmv =>
    rw [hnm] at hok
    cases hha : raw.homeAway with
    | none => rw [hha] at hok; simp at hok
    | some ha =>
      rw [hha] at hok
      dsimp only at hok
      by_cases hv : ha = "home" ∨ ha = "away"
      · rw [if_pos hv] at hok
        injection hok with hh
        subst hh
        rfl
      · rw [if_neg hv] at hok
        simp at hok

/-- Claim C10 (confirmed): in every GameSummary produced by the
scoreboard mappers, when both competitors carry the homeAway labels home
and away, the competitors list is ordered away first and home second:
the ESPN path sorts the raw competitors by their homeAway string before
mapping (whichever order they arrive in), every summary of
`parse_scoreboard` comes from that per-event mapping, and the CFBD path
assembles the list as away then home. -/
theorem c10_competitors_away_first :
    (∀ (convert : String → String) (sport : String) (e : SbEventRaw)
        (comp0 : SbCompetitionRaw) (rest : List SbCompetitionRaw)
        (c1 c2 : SbCompetitorRaw) (gs : GameSummary),
      e.competitions = comp0 :: rest → comp0.competitors = [c1, c2] →
      c1.homeAway = some "home" → c2.homeAway = some "away" →
      mapGameSummaryEvent convert sport e = .ok gs →
      ∃ a b, gs.competitors = [a, b] ∧ a.homeAway = "away" ∧ b.homeAway = "home") ∧
    (∀ (convert : String → String) (sport : String) (e : SbEventRaw)
        (comp0 : SbCompetitionRaw) (rest : List SbCompetitionRaw)
        (c1 c2 : SbCompetitorRaw) (gs : GameSummary),
      e.competitions = comp0 :: rest → comp0.competitors = [c1, c2] →
      c1.homeAway = some "away" → c2.homeAway = some "home" →
      mapGameSummaryEvent convert sport e = .ok gs →
      ∃ a b, gs.competitors = [a, b] ∧ a.homeAway = "away" ∧ b.homeAway = "home") ∧
    (∀ (convert : String → String) (sport : String) (events : List SbEventRaw)
        (out : List GameSummary),
      parse_scoreboard convert sport events = .ok out →
      ∀ gs ∈ out, ∃ e ∈ events, mapGameSummaryEvent convert sport e = .ok gs) ∧
    (∀ (convert : String → String) (logoOf : String → Option String)
        (raw_games : List CfbRawGame) (gs : GameSummary),
      gs ∈ build_cfb_scoreboard_games convert logoOf raw_games →
      ∃ a b, gs.competitors = [a, b] ∧ a.homeAway = "away" ∧ b.homeAway = "home") := by
  refine ⟨?_, ?_, ?_, ?_⟩
  · intro convert sport e comp0 rest c1 c2 gs hcomps hcs h1 h2 hok
    simp only [mapGameSummaryEvent] at hok
    rw [hcomps] at hok
    dsimp only at hok
    rw [hcs] at hok
    have hall : ([c1, c2].all (fun c => c.homeAway.isSome)) = true := by simp [h1, h2]
    rw [if_pos hall] at hok
    have hsort : List.insertionSort
        (fun a b => pyStrLe (a.homeAway.getD "") (b.homeAway.getD "") = true) [c1, c2] =
        [c2, c1] := by
      simp only [List.insertionSort, List.orderedInsert, h1, h2, Option.getD_some]
      rw [if_neg (by decide : ¬(pyStrLe "home" "away" = true))]
    rw [hsort] at hok
    cases hdate : e.date with
    | none => rw [hdate] at hok; simp at hok
    | some d =>
      rw [hdate] at hok
      dsimp only at hok
      simp only [mapCompetitors] at hok
      cases hc2 : map_competitor c2 with
      | error err => rw [hc2] at hok; simp at hok
      | ok a =>
        rw [hc2] at hok
        dsimp only at hok
        cases hc1 : map_competitor c1 with
        | error err => rw [hc1] at hok; simp at hok
        | ok b =>
          rw [hc1] at hok
          dsimp only at hok
          injection hok with hh
          subst hh
          refine ⟨a, b, rfl, ?_, ?_⟩
          · have hh2 := map_competitor_homeAway c2 a hc2
            rw [h2] at hh2
            exact (Option.some.inj hh2).symm
          · have hh1 := map_competitor_homeAway c1 b hc1
            rw [h1] at hh1
            exact (Option.some.inj hh1).symm
  · intro convert sport e comp0 rest c1 c2 gs hcomps hcs h1 h2 hok
    simp only [mapGameSummaryEvent] at hok
    rw [hcomps] at hok
    dsimp only at hok
    rw [hcs] at hok
    have hall : ([c1, c2].all (fun c => c.homeAway.isSome)) = true := by simp [h1, h2]
    rw [if_pos hall] at hok
    have hsort : List.insertionSort
        (fun a b => pyStrLe (a.homeAway.getD "") (b.homeAway.getD "") = true) [c1, c2] =
        [c1, c2] := by
      simp only [List.insertionSort, List.orderedInsert, h1, h2, Option.getD_some]
      rw [if_pos (by decide : (pyStrLe "away" "home" = true))]
    rw [hsort] at hok
    cases hdate : e.date with
    | none => rw [hdate] at hok; simp at hok
    | some d =>
      rw [hdate] at hok
      dsimp only at hok
      simp only [mapCompetitors] at hok
      cases hc1 : map_competitor c1 with
      | error err => rw [hc1] at hok; simp at hok
      | ok a =>
        rw [hc1] at hok
        dsimp only at hok
        cases hc2 : map_competitor c2 with
        | error err => rw [hc2] at hok; simp at hok
        | ok b =>
          rw [hc2] at hok
          dsimp only at hok
          injection hok with hh
          subst hh
          refine ⟨a, b, rfl, ?_, ?_⟩
          · have hh1 := map_competitor_homeAway c1 a hc1
            rw [h1] at hh1
            exact (Option.some.inj hh1).symm
          · have hh2 := map_competitor_homeAway c2 b hc2
            rw [h2] at hh2
            exact (Option.some.inj hh2).symm
  · intro convert sport events
    induction events with
    | nil =>
      intro out hok gs hgs
      simp only [parse_scoreboard] at hok
      injection hok with hh
      subst hh
      simp at hgs
    | cons e rest ih =>
      intro out hok gs hgs
      simp only [parse_scoreboard] at hok
      cases he : mapGameSummaryEvent convert sport e with
      | error err => rw [he] at hok; simp at hok
      | ok gs0 =>
        rw [he] at hok
        dsimp only at hok
        cases hr : parse_scoreboard convert sport rest with
        | error err => rw [hr] at hok; simp at hok
        | ok out0 =>
          rw [hr] at hok
          dsimp only at hok
          injection hok with hh
          subst hh
          rcases List.mem_cons.mp hgs with hgs0 | hgs1
          · subst hgs0
            exact ⟨e, List.mem_cons_self e rest, he⟩
          · obtain ⟨e2, he2m, he2⟩ := ih out0 hr gs hgs1
            exact ⟨e2, List.mem_cons_of_mem e he2m, he2⟩
  · intro convert logoOf raw_games gs hgs
    simp only [build_cfb_scoreboard_games, List.mem_filterMap] at hgs
    obtain ⟨g, hg, hmap⟩ := hgs
    simp only [build_cfb_game] at hmap
    split at hmap
    · simp at hmap
    · split at hmap
      · simp at hmap
      · split at hmap
        · simp at hmap
        · injection hmap with hh
          subst hh
          exact ⟨_, _, rfl, rfl, rfl⟩

/-- A scoreboard event whose raw competitors arrive home-first. -/
def c10Event : SbEventRaw :=
  { id := "e1", date := some "2025-01-01T00:00Z"
    status := { type := { description := "Final" } }
    competitions := [ { competitors := [
      { team := { id := some "2", displayName := some "B" }
        homeAway := some "home", score := some (.sStr "24") },
      { team := { id := some "1", displayName := some "A" }
        homeAway := some "away", score := some (.sStr "21") } ] } ] }

/-- A CFBD game row with two FBS teams. -/
def c10Game : CfbRawGame :=
  { id := some (.sInt 401), homeClassification := some "fbs"
    awayClassification := some "fbs", home_team := some "Georgia"
    away_team := some "Alabama", completed := some true }

/-- Witness for C10: both paths put the away competitor first on the
concrete inputs. -/
theorem c10_competitors_away_first_witness :
    ((mapGameSummaryEvent (fun s => s) "nfl" c10Event).toOption.map
      (fun gs => gs.competitors.map Competitor.homeAway) = some ["away", "home"]) ∧
    ((build_cfb_scoreboard_games (fun s => s) (fun _ => none) [c10Game]).map
      (fun gs => gs.competitors.map Competitor.homeAway) = [["away", "home"]]) := by
  constructor
  · cases hok : mapGameSummaryEvent (fun s => s) "nfl" c10Event with
    | error err =>
      have hne : exceptOk (mapGameSummaryEvent (fun s => s) "nfl" c10Event) = true := by decide
      rw [hok] at hne
      simp [exceptOk] at hne
    | ok gs =>
      obtain ⟨a, b, hcomp, ha, hb⟩ := c10_competitors_away_first.1 (fun s => s) "nfl"
        c10Event _ _ _ _ gs rfl rfl rfl rfl hok
      simp [Except.toOption, hcomp, ha, hb]
  · cases hbuild : build_cfb_scoreboard_games (fun s => s) (fun _ => none) [c10Game] with
    | nil => exact absurd hbuild (by decide)
    | cons gs rest =>
      have hlen : (build_cfb_scoreboard_games (fun s => s)
          (fun _ => none) [c10Game]).length = 1 := by decide
      rw [hbuild] at hlen
      simp only [List.length_cons, Nat.succ.injEq] at hlen
      have hrest : rest = [] := List.length_eq_zero.mp hlen
      subst hrest
      obtain ⟨a, b, hcomp, ha, hb⟩ := c10_competitors_away_first.2.2.2 (fun s => s)
        (fun _ => none) [c10Game] gs (by rw [hbuild]; exact List.mem_cons_self _ _)
      simp [hcomp, ha, hb]


/-! ## Boxscore player stats (app/main.py, `_map_boxscore`) -/

/-- `athlete.get("athlete")` info object. -/
structure AthleteInfo where
  displayName : Option String := none
  shortName : Option String := none
  name : Option String := none
  deriving DecidableEq, Repr

/-- A dict-shaped per-athlete stat map (`stats` must be a mapping; a
missing or non-dict value is `none` on the entry below). -/
abbrev StatsDict := List (String × PyVal)

/-- `k in stats`. -/
def statsDictHas (d : StatsDict) (k : String) : Bool :=
  (d.find? (fun p => p.1 = k)).isSome

/-- `stats[k]` (after a successful membership test). -/
def statsDictGet (d : StatsDict) (k : String) : PyVal :=
  ((d.find? (fun p => p.1 = k)).map (·.2)).getD .sNone

/-- One athlete entry of a boxscore stat group. -/
structure BoxAthleteEntry where
  athlete : Option AthleteInfo := none
  stats : Option StatsDict := none
  deriving DecidableEq, Repr

/-- One stat group (passing/rushing/receiving) of a team section. -/
structure BoxStatGroup where
  name : Option String := none
  athletes : Option (List BoxAthleteEntry) := none
  deriving DecidableEq, Repr

/-- One per-team section of `boxscore.players`. -/
structure BoxPlayerSection where
  team : Option TeamIdRaw := none
  statistics : Option (List BoxStatGroup) := none
  deriving DecidableEq, Repr

/-- Output passing stat line (app/schemas.py `PassingStat`). -/
structure PassingLine where
  player : String
  team : String
  completions : Int
  attempts : Int
  yards : Int
  touchdowns : Int
  interceptions : Int
  deriving DecidableEq, Repr

/-- Output rushing stat line. -/
structure RushingLine where
  player : String
  team : String
  carries : Int
  yards : Int
  touchdowns : Int
  deriving DecidableEq, Repr

/-- Output receiving stat line. -/
structure ReceivingLine where
  player : String
  team : String
  receptions : Int
  yards : Int
  touchdowns : Int
  deriving DecidableEq, Repr

/-- The three per-category accumulator lists of `_map_boxscore`. -/
structure PlayerLists where
  passing : List PassingLine := []
  rushing : List RushingLine := []
  receiving : List ReceivingLine := []
  deriving DecidableEq, Repr

/-- `_side_for_team(team_id)`. -/
def side_for_team (home_id away_id team_id : String) : Option String :=
  if team_id = home_id then some "home"
  else if team_id = away_id then some "away"
  else none

/-- Player name resolution: `displayName or shortName or name`, with a
falsy result skipping the athlete. -/
def athletePlayerName (a : BoxAthleteEntry) : Option String :=
  let ainfo := a.athlete.getD {}
  pyOrStr ainfo.displayName (pyOrStr ainfo.shortName ainfo.name)

/-- One athlete iteration of the `_map_boxscore` player loop: skip
non-dict stats and nameless athletes; for a recognized group require all
category fields present (otherwise skip) and convert them with `int()`,
whose failure raises out of the whole mapper. -/
def procAthlete (side : String) (group_name : Option String) (st : PlayerLists)
    (a : BoxAthleteEntry) : Except String PlayerLists :=
  match a.stats with
  | none => .ok st
  | some stats =>
    match athletePlayerName a with
    | none => .ok st
    | some pname =>
      if pname = "" then .ok st
      else if group_name = some "passing" then
        if ["completions", "attempts", "yards", "touchdowns", "interceptions"].all
            (statsDictHas stats) then
          match pyIntOf (statsDictGet stats "completions") with
          | none => .error "int() conversion failed"
          | some c =>
            match pyIntOf (statsDictGet stats "attempts") with
            | none => .error "int() conversion failed"
            | some at2 =>
              match pyIntOf (statsDictGet stats "yards") with
              | none => .error "int() conversion failed"
              | some y =>
                match pyIntOf (statsDictGet stats "touchdowns") with
                | none => .error "int() conversion failed"
                | some td =>
                  match pyIntOf (statsDictGet stats "interceptions") with
                  | none => .error "int() conversion failed"
                  | some ic =>
                    .ok { st with passing := st.passing ++
                      [{ player := pname, team := side, completions := c, attempts := at2,
                         yards := y, touchdowns := td, interceptions := ic }] }
        else .ok st
      else if group_name = some "rushing" then
        if ["carries", "yards", "touchdowns"].all (statsDictHas stats) then
          match pyIntOf (statsDictGet stats "carries") with
          | none => .error "int() conversion failed"
          | some ca =>
            match pyIntOf (statsDictGet stats "yards") with
            | none => .error "int() conversion failed"
            | some y =>
              match pyIntOf (statsDictGet stats "touchdowns") with
              | none => .error "int() conversion failed"
              | some td =>
                .ok { st with rushing := st.rushing ++
                  [{ player := pname, team := side, carries := ca, yards := y,
                     touchdowns := td }] }
        else .ok st
      else if group_name = some "receiving" then
        if ["receptions", "yards", "touchdowns"].all (statsDictHas stats) then
          match pyIntOf (statsDictGet stats "receptions") with
          | none => .error "int() conversion failed"
          | some re =>
            match pyIntOf (statsDictGet stats "yards") with
            | none => .error "int() conversion failed"
            | some y =>
              match pyIntOf (statsDictGet stats "touchdowns") with
              | none => .error "int() conversion failed"
              | some td =>
                .ok { st with receiving := st.receiving ++
                  [{ player := pname, team := side, receptions := re, yards := y,
                     touchdowns := td }] }
        else .ok st
      else .ok st

/-- Athlete loop of one stat group. -/
def procAthletes (side : String) (group_name : Option String) :
    List BoxAthleteEntry → PlayerLists → Except String PlayerLists
  | [], st => .ok st
  | a :: rest, st =>
    match procAthlete side group_name st a with
    | .error e => .error e
    | .ok st2 => procAthletes side group_name rest st2

/-- Group loop of one team section. -/
def procGroups (side : String) : List BoxStatGroup → PlayerLists → Except String PlayerLists
  | [], st => .ok st
  | g :: rest, st =>
    match procAthletes side g.name (g.athletes.getD []) st with
    | .error e => .error e
    | .ok st2 => procGroups side rest st2

/-- Section loop over `boxscore.players`; a section whose team id matches
neither side is skipped. -/
def procSections (home_id away_id : String) :
    List BoxPlayerSection → PlayerLists → Except String PlayerLists
  | [], st => .ok st
  | sec :: rest, st =>
    match side_for_team home_id away_id (pyStrOrEmpty (sec.team.getD {}).id) with
    | none => procSections home_id away_id rest st
    | some side =>
      match procGroups side (sec.statistics.getD []) st with
      | .error e => .error e
      | .ok st2 => procSections home_id away_id rest st2

/-- The player-stats portion of `_map_boxscore` before the top-3
truncation. -/
def map_boxscore_players (home_id away_id : String) (sections : List BoxPlayerSection) :
    Except String PlayerLists :=
  procSections home_id away_id sections {}

/-- The player-stats portion of `_map_boxscore` including the final
top-3-by-yards truncation of each category. -/
def map_boxscore_player_stats (home_id away_id : String) (sections : List BoxPlayerSection) :
    Except String PlayerLists :=
  match map_boxscore_players home_id away_id sections with
  | .error e => .error e
  | .ok st =>
    .ok
      { passing := (List.insertionSort (fun a b => b.yards ≤ a.yards) st.passing).take 3
        rushing := (List.insertionSort (fun a b => b.yards ≤ a.yards) st.rushing).take 3
        receiving := (List.insertionSort (fun a b => b.yards ≤ a.yards) st.receiving).take 3 }

/-- Declarative passing line of one athlete: produced exactly when the
stats form a mapping, the athlete has a truthy name, and every required
passing field is present and converts. -/
def mkPassingLine (side : String) (a : BoxAthleteEntry) : Option PassingLine :=
  match a.stats with
  | none => none
  | some stats =>
    match athletePlayerName a with
    | none => none
    | some pname =>
      if pname = "" then none
      else if ["completions", "attempts", "yards", "touchdowns", "interceptions"].all
          (statsDictHas stats) then
        match pyIntOf (statsDictGet stats "completions"), pyIntOf (statsDictGet stats "attempts"),
            pyIntOf (statsDictGet stats "yards"), pyIntOf (statsDictGet stats "touchdowns"),
            pyIntOf (statsDictGet stats "interceptions") with
        | some c, some at2, some y, some td, some ic =>
          some { player := pname, team := side, completions := c, attempts := at2,
                 yards := y, touchdowns := td, interceptions := ic }
        | _, _, _, _, _ => none
      else none

/-- Declarative rushing line of one athlete. -/
def mkRushingLine (side : String) (a : BoxAthleteEntry) : Option RushingLine :=
  match a.stats with
  | none => none
  | some stats =>
    match athletePlayerName a with
    | none => none
    | some pname =>
      if pname = "" then none
      else if ["carries", "yards", "touchdowns"].all (statsDictHas stats) then
        match pyIntOf (statsDictGet stats "carries"), pyIntOf (statsDictGet stats "yards"),
            pyIntOf (statsDictGet stats "touchdowns") with
        | some ca, some y, some td =>
          some { player := pname, team := side, carries := ca, yards := y, touchdowns := td }
        | _, _, _ => none
      else none

/-- Declarative receiving line of one athlete. -/
def mkReceivingLine (side : String) (a : BoxAthleteEntry) : Option ReceivingLine :=
  match a.stats with
  | none => none
  | some stats =>
    match athletePlayerName a with
    | none => none
    | some pname =>
      if pname = "" then none
      else if ["receptions", "yards", "touchdowns"].all (statsDictHas stats) then
        match pyIntOf (statsDictGet stats "receptions"), pyIntOf (statsDictGet stats "yards"),
            pyIntOf (statsDictGet stats "touchdowns") with
        | some re, some y, some td =>
          some { player := pname, team := side, receptions := re, yards := y, touchdowns := td }
        | _, _, _ => none
      else none

/-- Modelled from the spec sentences of the claim: the lines a category
should contain, gathered per section and group by completeness-filtered
mapping. -/
def passingSpec (home_id away_id : String) (sections : List BoxPlayerSection) :
    List PassingLine :=
  sections.bind (fun sec =>
    match side_for_team home_id away_id (pyStrOrEmpty (sec.team.getD {}).id) with
    | none => []
    | some side =>
      (sec.statistics.getD []).bind (fun g =>
        if g.name = some "passing" then (g.athletes.getD []).filterMap (mkPassingLine side)
        else []))

/-- Rushing analogue of `passingSpec`. -/
def rushingSpec (home_id away_id : String) (sections : List BoxPlayerSection) :
    List RushingLine :=
  sections.bind (fun sec =>
    match side_for_team home_id away_id (pyStrOrEmpty (sec.team.getD {}).id) with
    | none => []
    | some side =>
      (sec.statistics.getD []).bind (fun g =>
        if g.name = some "rushing" then (g.athletes.getD []).filterMap (mkRushingLine side)
        else []))

/-- Receiving analogue of `passingSpec`. -/
def receivingSpec (home_id away_id : String) (sections : List BoxPlayerSection) :
    List ReceivingLine :=
  sections.bind (fun sec =>
    match side_for_team home_id away_id (pyStrOrEmpty (sec.team.getD {}).id) with
    | none => []
    | some side =>
      (sec.statistics.getD []).bind (fun g =>
        if g.name = some "receiving" then (g.athletes.getD []).filterMap (mkReceivingLine side)
        else []))


/-- One athlete step appends exactly its declarative line (if any) to the
list of its group's category and leaves the other categories
untouched. -/
theorem procAthlete_ok (side : String) (gname : Option String) (st : PlayerLists)
    (a : BoxAthleteEntry) (st2 : PlayerLists) (h : procAthlete side gname st a = .ok st2) :
    st2.passing = st.passing ++
      (if gname = some "passing" then (mkPassingLine side a).toList else []) ∧
    st2.rushing = st.rushing ++
      (if gname = some "rushing" then (mkRushingLine side a).toList else []) ∧
    st2.receiving = st.receiving ++
      (if gname = some "receiving" then (mkReceivingLine side a).toList else []) := by
  simp only [procAthlete] at h
  simp only [mkPassingLine, mkRushingLine, mkReceivingLine]
  cases hst : a.stats with
  | none =>
    rw [hst] at h
    dsimp only at h
    injection h with hh
    subst hh
    simp
  | some stats =>
    rw [hst] at h
    dsimp only at h
    cases hpn : athletePlayerName a with
    | none =>
      rw [hpn] at h
      dsimp only at h
      injection h with hh
      subst hh
      simp
    | some pname =>
      rw [hpn] at h
      dsimp only at h
      by_cases hemp : pname = ""
      · rw [if_pos hemp] at h
        simp only [if_pos hemp]
        injection h with hh
        subst hh
        simp
      · rw [if_neg hemp] at h
        simp only [if_neg hemp]
        by_cases hg1 : gname = some "passing"
        · rw [if_pos hg1] at h
          have hg2 : ¬(gname = some "rushing") := by rw [hg1]; simp
          have hg3 : ¬(gname = some "receiving") := by rw [hg1]; simp
          rw [if_pos hg1, if_neg hg2, if_neg hg3]
          by_cases hall : (["completions", "attempts", "yards", "touchdowns",
              "interceptions"].all (statsDictHas stats)) = true
          · rw [if_pos hall] at h
            rw [if_pos hall]
            cases hc1 : pyIntOf (statsDictGet stats "completions") with
            | none => rw [hc1] at h; simp at h
            | some c =>
              rw [hc1] at h
              dsimp only at h
              cases hc2 : pyIntOf (statsDictGet stats "attempts") with
              | none => rw [hc2] at h; simp at h
              | some at2 =>
                rw [hc2] at h
                dsimp only at h
                cases hc3 : pyIntOf (statsDictGet stats "yards") with
                | none => rw [hc3] at h; simp at h
                | some y =>
                  rw [hc3] at h
                  dsimp only at h
                  cases hc4 : pyIntOf (statsDictGet stats "touchdowns") with
                  | none => rw [hc4] at h; simp at h
                  | some td =>
                    rw [hc4] at h
                    dsimp only at h
                    cases hc5 : pyIntOf (statsDictGet stats "interceptions") with
                    | none => rw [hc5] at h; simp at h
                    | some ic =>
                      rw [hc5] at h
                      dsimp only at h
                      injection h with hh
                      subst hh
                      simp
          · rw [if_neg hall] at h
            rw [if_neg hall]
            injection h with hh
            subst hh
            simp
        · rw [if_neg hg1] at h
          rw [if_neg hg1]
          by_cases hg2 : gname = some "rushing"
          · rw [if_pos hg2] at h
            have hg3 : ¬(gname = some "receiving") := by rw [hg2]; simp
            rw [if_pos hg2, if_neg hg3]
            by_cases hall : (["carries", "yards", "touchdowns"].all
                (statsDictHas stats)) = true
            · rw [if_pos hall] at h
              rw [if_pos hall]
              cases hc1 : pyIntOf (statsDictGet stats "carries") with
              | none => rw [hc1] at h; simp at h
              | some ca =>
                rw [hc1] at h
                dsimp only at h
                cases hc2 : pyIntOf (statsDictGet stats "yards") with
                | none => rw [hc2] at h; simp at h
                | some y =>
                  rw [hc2] at h
                  dsimp only at h
                  cases hc3 : pyIntOf (statsDictGet stats "touchdowns") with
                  | none => rw [hc3] at h; simp at h
                  | some td =>
                    rw [hc3] at h
                    dsimp only at h
                    injection h with hh
                    subst hh
                    simp
            · rw [if_neg hall] at h
              rw [if_neg hall]
              injection h with hh
              subst hh
              simp
          · rw [if_neg hg2] at h
            rw [if_neg hg2]
            by_cases hg3 : gname = some "receiving"
            · rw [if_pos hg3] at h
              rw [if_pos hg3]
              by_cases hall : (["receptions", "yards", "touchdowns"].all
                  (statsDictHas stats)) = true
              · rw [if_pos hall] at h
                rw [if_pos hall]
                cases hc1 : pyIntOf (statsDictGet stats "receptions") with
                | none => rw [hc1] at h; simp at h
                | some re =>
                  rw [hc1] at h
                  dsimp only at h
                  cases hc2 : pyIntOf (statsDictGet stats "yards") with
                  | none => rw [hc2] at h; simp at h
                  | some y =>
                    rw [hc2] at h
                    dsimp only at h
                    cases hc3 : pyIntOf (statsDictGet stats "touchdowns") with
                    | none => rw [hc3] at h; simp at h
                    | some td =>
                      rw [hc3] at h
                      dsimp only at h
                      injection h with hh
                      subst hh
                      simp
              · rw [if_neg hall] at h
                rw [if_neg hall]
                injection h with hh
                subst hh
                simp
            · rw [if_neg hg3] at h
              rw [if_neg hg3]
              injection h with hh
              subst hh
              simp

/-- Athlete-loop accumulation: each category gains exactly the
declarative lines of its group. -/
theorem procAthletes_ok (side : String) (gname : Option String)
    (athletes : List BoxAthleteEntry) :
    ∀ st st2, procAthletes side gname athletes st = .ok st2 →
    st2.passing = st.passing ++
      (if gname = some "passing" then athletes.filterMap (mkPassingLine side) else []) ∧
    st2.rushing = st.rushing ++
      (if gname = some "rushing" then athletes.filterMap (mkRushingLine side) else []) ∧
    st2.receiving = st.receiving ++
      (if gname = some "receiving" then athletes.filterMap (mkReceivingLine side) else []) := by
  induction athletes with
  | nil =>
    intro st st2 h
    simp only [procAthletes] at h
    injection h with hh
    subst hh
    simp
  | cons a rest ih =>
    intro st st2 h
    simp only [procAthletes] at h
    cases ha : procAthlete side gname st a with
    | error e => rw [ha] at h; simp at h
    | ok stA =>
      rw [ha] at h
      dsimp only at h
      obtain ⟨h1, h2, h3⟩ := procAthlete_ok side gname st a stA ha
      obtain ⟨g1, g2, g3⟩ := ih stA st2 h
      refine ⟨?_, ?_, ?_⟩
      · rw [g1, h1, List.filterMap_cons]
        by_cases hg : gname = some "passing"
        · rw [if_pos hg, if_pos hg, if_pos hg]
          cases mkPassingLine side a <;> simp
        · rw [if_neg hg, if_neg hg, if_neg hg]; simp
      · rw [g2, h2, List.filterMap_cons]
        by_cases hg : gname = some "rushing"
        · rw [if_pos hg, if_pos hg, if_pos hg]
          cases mkRushingLine side a <;> simp
        · rw [if_neg hg, if_neg hg, if_neg hg]; simp
      · rw [g3, h3, List.filterMap_cons]
        by_cases hg : gname = some "receiving"
        · rw [if_pos hg, if_pos hg, if_pos hg]
          cases mkReceivingLine side a <;> simp
        · rw [if_neg hg, if_neg hg, if_neg hg]; simp

theorem listBindCons {α β : Type} (a : α) (l : List α) (f : α → List β) :
    (a :: l).bind f = f a ++ l.bind f := rfl

/-- Group-loop accumulation over one team section. -/
theorem procGroups_ok (side : String) (groups : List BoxStatGroup) :
    ∀ st st2, procGroups side groups st = .ok st2 →
    st2.passing = st.passing ++ groups.bind (fun g =>
      if g.name = some "passing" then (g.athletes.getD []).filterMap (mkPassingLine side)
      else []) ∧
    st2.rushing = st.rushing ++ groups.bind (fun g =>
      if g.name = some "rushing" then (g.athletes.getD []).filterMap (mkRushingLine side)
      else []) ∧
    st2.receiving = st.receiving ++ groups.bind (fun g =>
      if g.name = some "receiving" then (g.athletes.getD []).filterMap (mkReceivingLine side)
      else []) := by
  induction groups with
  | nil =>
    intro st st2 h
    simp only [procGroups] at h
    injection h with hh
    subst hh
    simp
  | cons g rest ih =>
    intro st st2 h
    simp only [procGroups] at h
    cases hg : procAthletes side g.name (g.athletes.getD []) st with
    | error e => rw [hg] at h; simp at h
    | ok stG =>
      rw [hg] at h
      dsimp only at h
      obtain ⟨h1, h2, h3⟩ := procAthletes_ok side g.name (g.athletes.getD []) st stG hg
      obtain ⟨g1, g2, g3⟩ := ih stG st2 h
      refine ⟨?_, ?_, ?_⟩
      · rw [g1, h1, listBindCons, List.append_assoc]
      · rw [g2, h2, listBindCons, List.append_assoc]
      · rw [g3, h3, listBindCons, List.append_assoc]

/-- Section-loop accumulation over the whole players array. -/
theorem procSections_ok (hid aid : String) (sections : List BoxPlayerSection) :
    ∀ st st2, procSections hid aid sections st = .ok st2 →
    st2.passing = st.passing ++ sections.bind (fun sec =>
      match side_for_team hid aid (pyStrOrEmpty (sec.team.getD {}).id) with
      | none => []
      | some side => (sec.statistics.getD []).bind (fun g =>
          if g.name = some "passing" then
            (g.athletes.getD []).filterMap (mkPassingLine side)
          else [])) ∧
    st2.rushing = st.rushing ++ sections.bind (fun sec =>
      match side_for_team hid aid (pyStrOrEmpty (sec.team.getD {}).id) with
      | none => []
      | some side => (sec.statistics.getD []).bind (fun g =>
          if g.name = some "rushing" then
            (g.athletes.getD []).filterMap (mkRushingLine side)
          else [])) ∧
    st2.receiving = st.receiving ++ sections.bind (fun sec =>
      match side_for_team hid aid (pyStrOrEmpty (sec.team.getD {}).id) with
      | none => []
      | some side => (sec.statistics.getD []).bind (fun g =>
          if g.name = some "receiving" then
            (g.athletes.getD []).filterMap (mkReceivingLine side)
          else [])) := by
  induction sections with
  | nil =>
    intro st st2 h
    simp only [procSections] at h
    injection h with hh
    subst hh
    simp
  | cons sec rest ih =>
    intro st st2 h
    simp only [procSections] at h
    cases hside : side_for_team hid aid (pyStrOrEmpty (sec.team.getD {}).id) with
    | none =>
      rw [hside] at h
      dsimp only at h
      obtain ⟨g1, g2, g3⟩ := ih st st2 h
      refine ⟨?_, ?_, ?_⟩
      · rw [g1, listBindCons, hside]; simp
      · rw [g2, listBindCons, hside]; simp
      · rw [g3, listBindCons, hside]; simp
    | some side =>
      rw [hside] at h
      dsimp only at h
      cases hgrp : procGroups side (sec.statistics.getD []) st with
      | error e => rw [hgrp] at h; simp at h
      | ok stS =>
        rw [hgrp] at h
        dsimp only at h
        obtain ⟨h1, h2, h3⟩ := procGroups_ok side (sec.statistics.getD []) st stS hgrp
        obtain ⟨g1, g2, g3⟩ := ih stS st2 h
        refine ⟨?_, ?_, ?_⟩
        · rw [g1, h1, listBindCons, hside, List.append_assoc]
        · rw [g2, h2, listBindCons, hside, List.append_assoc]
        · rw [g3, h3, listBindCons, hside, List.append_assoc]


/-- A rushing athlete entry with every required field present and
parseable. -/
def c6RushAthlete : BoxAthleteEntry :=
  { athlete := some { displayName := some "QB Smith" },
    stats := some [("carries", .sInt 8), ("yards", .sInt 42), ("touchdowns", .sInt 1)] }

/-- A passing athlete entry with every required field present but
`completions` unparseable. -/
def c6PassAthlete : BoxAthleteEntry :=
  { athlete := some { displayName := some "QB Smith" },
    stats := some [("completions", .sStr "abc"), ("attempts", .sInt 30),
      ("yards", .sInt 250), ("touchdowns", .sInt 2), ("interceptions", .sInt 1)] }

/-- A home-team section carrying the complete rushing entry and the
unparseable passing entry. -/
def c6Section : BoxPlayerSection :=
  { team := some { id := some (.sStr "H") },
    statistics := some
      [ { name := some "rushing", athletes := some [c6RushAthlete] },
        { name := some "passing", athletes := some [c6PassAthlete] } ] }

/-- Counterexample to C6 as stated: the rushing entry is complete and
would yield its line, and the claim says the present-but-unparseable
passing entry merely yields no passing record; instead `int("abc")`
raises inside `_map_boxscore` and the whole player mapping aborts,
emitting no lines at all. -/
theorem c6_counterexample :
    (mkRushingLine "home" c6RushAthlete).isSome = true ∧
    mkPassingLine "home" c6PassAthlete = none ∧
    exceptOk (map_boxscore_players "H" "A" [c6Section]) = false := by decide

/-- C6 (corrected): whenever the player mapping of `_map_boxscore`
returns at all, each category list contains exactly the athletes of that
category's groups whose required fields are all present and all
parseable, in traversal order — partial data contributes no record, and
a complete entry of the same player in another category still yields its
line — and the final player stats are the top three of each category by
descending yards. The mapping returns, however, only when no present
required field is unparseable: such a value raises out of the whole
mapper instead of being skipped. -/
theorem c6_player_lines (hid aid : String) (sections : List BoxPlayerSection)
    (st : PlayerLists) (h : map_boxscore_players hid aid sections = .ok st) :
    st.passing = passingSpec hid aid sections ∧
    st.rushing = rushingSpec hid aid sections ∧
    st.receiving = receivingSpec hid aid sections ∧
    map_boxscore_player_stats hid aid sections = .ok
      { passing := (List.insertionSort (fun a b => b.yards ≤ a.yards)
          (passingSpec hid aid sections)).take 3
        rushing := (List.insertionSort (fun a b => b.yards ≤ a.yards)
          (rushingSpec hid aid sections)).take 3
        receiving := (List.insertionSort (fun a b => b.yards ≤ a.yards)
          (receivingSpec hid aid sections)).take 3 } := by
  have h2 : procSections hid aid sections {} = Except.ok st := h
  obtain ⟨ha, hb, hc⟩ := procSections_ok hid aid sections {} st h2
  have hp : st.passing = passingSpec hid aid sections := by rw [ha]; rfl
  have hr : st.rushing = rushingSpec hid aid sections := by rw [hb]; rfl
  have hv : st.receiving = receivingSpec hid aid sections := by rw [hc]; rfl
  refine ⟨hp, hr, hv, ?_⟩
  simp only [map_boxscore_player_stats]
  rw [h]
  dsimp only
  rw [hp, hr, hv]

/-- The athlete of the amended claim scenario: a passing entry with
`interceptions` missing. -/
def c6WitnessPassAthlete : BoxAthleteEntry :=
  { athlete := some { displayName := some "QB Smith" },
    stats := some [("completions", .sInt 20), ("attempts", .sInt 30),
      ("yards", .sInt 250), ("touchdowns", .sInt 2)] }

/-- Section of the amended claim scenario: the incomplete passing entry
next to a complete rushing entry for the same player. -/
def c6WitnessSection : BoxPlayerSection :=
  { team := some { id := some (.sStr "H") },
    statistics := some
      [ { name := some "passing", athletes := some [c6WitnessPassAthlete] },
        { name := some "rushing", athletes := some [c6RushAthlete] } ] }

/-- Witness for C6 at the spec scenario: the passing entry missing
`interceptions` emits zero passing lines while the complete rushing
entry of the same player still emits its rushing line. -/
theorem c6_player_lines_witness :
    map_boxscore_players "H" "A" [c6WitnessSection] = Except.ok
      { passing := [],
        rushing := [{ player := "QB Smith", team := "home", carries := 8,
                      yards := 42, touchdowns := 1 }],
        receiving := [] } ∧
    ([] : List PassingLine) = passingSpec "H" "A" [c6WitnessSection] ∧
    [({ player := "QB Smith", team := "home", carries := 8, yards := 42,
        touchdowns := 1 } : RushingLine)] = rushingSpec "H" "A" [c6WitnessSection] := by
  have hok : map_boxscore_players "H" "A" [c6WitnessSection] = Except.ok
      { passing := [],
        rushing := [{ player := "QB Smith", team := "home", carries := 8,
                      yards := 42, touchdowns := 1 }],
        receiving := [] } := by rfl
  obtain ⟨h1, h2, h3, h4⟩ := c6_player_lines "H" "A" [c6WitnessSection] _ hok
  exact ⟨hok, h1.symm, h2.symm⟩


/-! ## `_build_summary_like_payload_from_core` (app/main.py) -/

/-- A Core sub-object that is either a `$ref`/`href` pointer (a dict with
a nonempty reference url, per `_get_ref_url`) or an inline dict; an
absent or falsy field holds `none` on the enclosing record. -/
inductive RefOr (α : Type) where
  | ref (url : String)
  | inline (val : α)
  deriving DecidableEq, Repr

/-- Inline-vs-pointer resolution of one Core sub-object: a pointer is
fetched with the fetch failure (`RuntimeError`) tolerated by
substituting the empty object, an inline dict is used as is, and an
absent field yields the empty object. -/
def resolveCore {α : Type} (emptyVal : α) (fetch : String → Option α) :
    Option (RefOr α) → α
  | none => emptyVal
  | some (.ref url) => (fetch url).getD emptyVal
  | some (.inline v) => v

/-- A Core field that may hold a dict or a bare scalar id; a non-dict
value is replaced by the empty dict. -/
inductive DictOrScalar (α : Type) where
  | dict (d : α)
  | scalar (v : PyVal)
  deriving DecidableEq, Repr

/-- `event.get(k) or comp.get(k)` followed by the non-dict check. -/
def coreDictOr {α : Type} (emptyVal : α) (e c : Option (DictOrScalar α)) : α :=
  match e.orElse (fun _ => c) with
  | some (.dict d) => d
  | _ => emptyVal

/-- Core `season` dict (only `year` is read). -/
structure SeasonCore where
  year : Option Int := none
  deriving DecidableEq, Repr

/-- Core `week` dict (only `number` is read). -/
structure WeekCore where
  number : Option Int := none
  deriving DecidableEq, Repr

/-- A Core team resource (the fields read when synthesizing the
Site-style team object). -/
structure CoreTeamData where
  id : Option PyVal := none
  displayName : Option String := none
  name : Option String := none
  abbreviation : Option String := none
  location : Option String := none
  deriving DecidableEq, Repr

/-- A competitor `score` field: a dict carrying `value`/`displayValue`
or a bare scalar. -/
inductive CoreScoreVal where
  | dict (value : Option PyVal) (displayValue : Option PyVal)
  | scalar (v : PyVal)
  deriving DecidableEq, Repr

/-- `score_core.get("value") or score_core.get("displayValue") or 0` for
a dict, `score_core or 0` for a scalar, with an absent or falsy score
standing for the empty dict. -/
def coreScoreVal : Option CoreScoreVal → PyVal
  | none => .sInt 0
  | some (.dict v dv) => (pyOrVal v (pyOrVal dv (some (.sInt 0)))).getD (.sInt 0)
  | some (.scalar v) => if pyTruthy v then v else .sInt 0

/-- A Core `situation.possession` field: an embedded object carrying an
`id` (and possibly a `team` sub-object) or a bare team-id scalar. -/
inductive CorePossVal where
  | dict (id : Option PyVal) (team : Option TeamIdRaw)
  | scalar (v : PyVal)
  deriving DecidableEq, Repr

/-- The stringified possession value: for a dict,
`str(poss.get("id") or ((poss.get("team") or \x7b\x7d).get("id") if
isinstance(..., dict) else ""))`; for a `str`/`int` scalar (Python bools
included), `str(poss)`; `None` otherwise. -/
def corePossessionVal : Option CorePossVal → Option String
  | none => none
  | some (.dict pid pteam) =>
    let inner : PyVal :=
      match pteam with
      | some t => t.id.getD .sNone
      | none => .sStr ""
    some (pyStrOf ((pyOrVal pid (some inner)).getD .sNone))
  | some (.scalar v) =>
    match v with
    | .sNone => none
    | v => some (pyStrOf v)

/-- A Core game-situation resource. -/
structure CoreSituationData where
  down : Option PyVal := none
  distance : Option PyVal := none
  yardLine : Option PyVal := none
  isRedZone : Option PyVal := none
  homeTimeouts : Option PyVal := none
  awayTimeouts : Option PyVal := none
  possession : Option CorePossVal := none
  lastPlay : Option LastPlayRaw := none
  play : Option LastPlayRaw := none
  deriving DecidableEq, Repr

/-- A Core venue resource (city/state may live on the venue itself or in
its `address` sub-object). -/
structure CoreVenueData where
  fullName : Option String := none
  name : Option String := none
  indoor : Option PyVal := none
  address : Option AddressRaw := none
  city : Option String := none
  state : Option String := none
  deriving DecidableEq, Repr

/-- One Core competitor entry (its `team` may be inline or a pointer). -/
structure CoreCompetitorRaw where
  homeAway : Option String := none
  id : Option PyVal := none
  team : Option (RefOr CoreTeamData) := none
  score : Option CoreScoreVal := none
  records : Option RecordsVal := none
  linescores : List LineScoreRaw := []
  deriving DecidableEq, Repr

/-- The resolved Core competition object. -/
structure CoreCompRaw where
  date : Option String := none
  season : Option (DictOrScalar SeasonCore) := none
  week : Option (DictOrScalar WeekCore) := none
  status : Option StatusWrap := none
  competitors : List CoreCompetitorRaw := []
  situation : Option (RefOr CoreSituationData) := none
  venue : Option (RefOr CoreVenueData) := none
  broadcasts : List (RefOr CoreBroadcastData) := []
  deriving DecidableEq, Repr

/-- The Core event object (the fields read besides its competition). -/
structure CoreEventRaw where
  date : Option String := none
  season : Option (DictOrScalar SeasonCore) := none
  week : Option (DictOrScalar WeekCore) := none
  situation : Option (RefOr CoreSituationData) := none
  venue : Option (RefOr CoreVenueData) := none
  deriving DecidableEq, Repr

/-- The `_http_get_json` oracles of the four sub-resource kinds, with
`none` standing for a fetch that raises `RuntimeError`. -/
structure CoreFetchers where
  team : String → Option CoreTeamData
  situation : String → Option CoreSituationData
  venue : String → Option CoreVenueData
  broadcast : String → Option CoreBroadcastData

/-- Synthesis of one Site-style competitor from a Core competitor: side
from the lower-cased `homeAway` flag, team resolved inline-vs-pointer
with a failed fetch replaced by the empty team object, score stringified
through the dict/scalar coercion, records and linescores passed
through. -/
def synthCompetitor (f : CoreFetchers) (c : CoreCompetitorRaw) : RawCompetitor :=
  let side :=
    let s := strLower (c.homeAway.getD "")
    if s = "" then none else some s
  let team_data := resolveCore {} f.team c.team
  let team_obj : TeamRaw :=
    { id := some (.sStr (pyStrOrEmpty (pyOrVal team_data.id c.id)))
      displayName := some (pyOrStrD team_data.displayName (pyOrStrD team_data.name ""))
      name := some (pyOrStrD team_data.name "")
      nickname := none
      abbreviation := some (pyOrStrD team_data.abbreviation "")
      location := team_data.location }
  { homeAway := side
    team := some team_obj
    score := some (.sStr (pyStrOf (coreScoreVal c.score)))
    records := some (c.records.getD (.list []))
    record := none
    linescores := c.linescores }

/-- Synthesis of the Site-style situation: the resolved situation (empty
on a failed fetch) populates the output only when nonempty, with the
possession and last-play special cases. -/
def synthSituation (f : CoreFetchers) (metaOpt : Option (RefOr CoreSituationData)) :
    SituationRaw :=
  let sc := resolveCore {} f.situation metaOpt
  if sc = {} then {}
  else
    { down := sc.down
      distance := sc.distance
      yardLine := sc.yardLine
      isRedZone := sc.isRedZone
      homeTimeouts := sc.homeTimeouts
      awayTimeouts := sc.awayTimeouts
      possession :=
        match corePossessionVal sc.possession with
        | some s => if s = "" then none else some (.sStr s)
        | none => none
      lastPlay :=
        let lp := (sc.lastPlay.orElse (fun _ => sc.play)).getD {}
        match pyOrStr lp.text lp.shortText with
        | some t => if t = "" then none else some { text := some t, shortText := none }
        | none => none }

/-- Synthesis of the Site-style venue: always emitted, built from the
resolved venue (empty on a failed fetch) with the name/city/state
fallbacks. -/
def synthVenue (f : CoreFetchers) (metaOpt : Option (RefOr CoreVenueData)) : VenueRaw :=
  let vc := resolveCore {} f.venue metaOpt
  let ac := vc.address.getD {}
  { fullName := pyOrStr vc.fullName vc.name
    name := vc.name
    indoor := vc.indoor
    address := some { city := pyOrStr ac.city vc.city, state := pyOrStr ac.state vc.state } }

/-- Synthesis of one broadcast entry: a truthy network yields the
normalized named entry, a networkless but nonempty resolved dict is
passed through raw, and an empty resolved dict (a failed fetch in
particular) yields nothing — the entry is dropped. -/
def synthBroadcast (f : CoreFetchers) (bm : RefOr CoreBroadcastData) : Option BroadcastOut :=
  let b := resolveCore {} f.broadcast (some bm)
  let network : Option PyVal :=
    match b.names with
    | some (x :: _) => some x
    | _ => pyOrVal b.shortName (pyOrVal b.name b.network)
  match network with
  | some v =>
    if pyTruthy v then some (.named v)
    else if b = {} then none else some (.raw b)
  | none => if b = {} then none else some (.raw b)

/-- The broadcast loop. -/
def synthBroadcasts (f : CoreFetchers) (l : List (RefOr CoreBroadcastData)) :
    List BroadcastOut :=
  l.filterMap (synthBroadcast f)

/-- `_build_summary_like_payload_from_core` after the event and
competition objects themselves resolved: synthesize the summary-shaped
payload with one competition and no scoring plays. -/
def build_summary_like_payload_from_core (f : CoreFetchers) (event : CoreEventRaw)
    (comp : CoreCompRaw) : Payload :=
  let season_core := coreDictOr {} event.season comp.season
  let week_core := coreDictOr {} event.week comp.week
  let status := (comp.status.getD {}).type.getD {}
  let competitors_synth := comp.competitors.map (synthCompetitor f)
  let situation := synthSituation f (comp.situation.orElse (fun _ => event.situation))
  let venue := synthVenue f (comp.venue.orElse (fun _ => event.venue))
  let broadcasts := synthBroadcasts f comp.broadcasts
  { header := some
      { season := some { year := season_core.year }
        week := some { number := week_core.number }
        competitions :=
          [ { date := pyOrStr comp.date event.date
              status := some { type := some status }
              competitors := competitors_synth
              situation := some situation
              venue := some venue
              broadcasts := broadcasts } ] }
    scoringPlays := [] }


theorem synthSituation_fail (f : CoreFetchers) (su : String)
    (hf : f.situation su = none) :
    synthSituation f (some (RefOr.ref su)) = {} := by
  simp only [synthSituation, resolveCore, hf]
  rfl

theorem synthVenue_fail (f : CoreFetchers) (vu : String)
    (hf : f.venue vu = none) :
    synthVenue f (some (RefOr.ref vu)) =
      { fullName := none, name := none, indoor := none,
        address := some { city := none, state := none } } := by
  simp only [synthVenue, resolveCore, hf]
  rfl

theorem synthBroadcast_fail (f : CoreFetchers) (bu : String)
    (hf : f.broadcast bu = none) :
    synthBroadcast f (RefOr.ref bu) = none := by
  simp only [synthBroadcast, resolveCore, hf]
  rfl

theorem synthCompetitor_teamFail (f : CoreFetchers) (c : CoreCompetitorRaw)
    (tu : String) (hteam : c.team = some (RefOr.ref tu)) (hf : f.team tu = none) :
    synthCompetitor f c =
      { homeAway := if strLower (c.homeAway.getD "") = "" then none
                    else some (strLower (c.homeAway.getD "")),
        team := some
          { id := some (.sStr (pyStrOrEmpty c.id)),
            displayName := some "", name := some "", nickname := none,
            abbreviation := some "", location := none },
        score := some (.sStr (pyStrOf (coreScoreVal c.score))),
        records := some (c.records.getD (.list [])),
        record := none,
        linescores := c.linescores } := by
  simp only [synthCompetitor]
  rw [hteam]
  simp only [resolveCore, hf]
  rfl

/-- C9 (corrected): with the situation and venue pointers failing to
resolve, the synthesis still returns a full payload whose single
competition carries an empty situation object and an empty venue object
while the sibling sub-parts (date, status, competitors, broadcasts) are
computed independently of those failures; a competitor whose team
pointer fails still appears, its team fields emptied and its id falling
back to the competitor id; but a broadcast whose pointer fails is
dropped from the broadcasts list entirely rather than appearing as an
empty entry. -/
theorem c9_subpart_isolation (f : CoreFetchers) (event : CoreEventRaw)
    (comp : CoreCompRaw) (su vu : String) (c : CoreCompetitorRaw) (tu bu : String)
    (hsit : comp.situation.orElse (fun _ => event.situation) = some (RefOr.ref su))
    (hsf : f.situation su = none)
    (hven : comp.venue.orElse (fun _ => event.venue) = some (RefOr.ref vu))
    (hvf : f.venue vu = none)
    (hteam : c.team = some (RefOr.ref tu)) (htf : f.team tu = none)
    (hbf : f.broadcast bu = none) :
    build_summary_like_payload_from_core f event comp =
      { header := some
          { season := some { year := (coreDictOr {} event.season comp.season).year }
            week := some { number := (coreDictOr {} event.week comp.week).number }
            competitions :=
              [ { date := pyOrStr comp.date event.date
                  status := some { type := some ((comp.status.getD {}).type.getD {}) }
                  competitors := comp.competitors.map (synthCompetitor f)
                  situation := some {}
                  venue := some { fullName := none, name := none, indoor := none,
                                  address := some { city := none, state := none } }
                  broadcasts := synthBroadcasts f comp.broadcasts } ] }
        scoringPlays := [] } ∧
    synthCompetitor f c =
      { homeAway := if strLower (c.homeAway.getD "") = "" then none
                    else some (strLower (c.homeAway.getD "")),
        team := some
          { id := some (.sStr (pyStrOrEmpty c.id)),
            displayName := some "", name := some "", nickname := none,
            abbreviation := some "", location := none },
        score := some (.sStr (pyStrOf (coreScoreVal c.score))),
        records := some (c.records.getD (.list [])),
        record := none,
        linescores := c.linescores } ∧
    synthBroadcast f (RefOr.ref bu) = none := by
  refine ⟨?_, synthCompetitor_teamFail f c tu hteam htf, synthBroadcast_fail f bu hbf⟩
  simp only [build_summary_like_payload_from_core]
  rw [hsit, hven, synthSituation_fail f su hsf, synthVenue_fail f vu hvf]

/-- Fetch oracles on which every sub-resource fetch fails. -/
def c9Fetchers : CoreFetchers :=
  { team := fun _ => none, situation := fun _ => none,
    venue := fun _ => none, broadcast := fun _ => none }

/-- A competition whose only broadcast is an unresolvable pointer. -/
def c9CexComp : CoreCompRaw :=
  { broadcasts := [RefOr.ref "http://core/broadcast"] }

/-- Counterexample to C9 as stated: the single broadcast entry fails to
resolve and the claim demands a present-but-empty broadcast sub-object,
but the synthesized competition carries an empty broadcasts list — the
entry is dropped, not emptied. -/
theorem c9_counterexample :
    c9CexComp.broadcasts.length = 1 ∧
    ((build_summary_like_payload_from_core c9Fetchers {} c9CexComp).header.getD
      {}).competitions.map (fun cp => cp.broadcasts) = [[]] := by decide

/-- The competitor of the witness scenario: a failing team pointer next
to inline score and records. -/
def c9Competitor : CoreCompetitorRaw :=
  { homeAway := some "HOME", id := some (.sInt 12),
    team := some (RefOr.ref "http://core/team"),
    score := some (.dict (some (.sInt 21)) none),
    records := some (.list [{ summary := some "9-8" }]) }

/-- The event of the witness scenario. -/
def c9Event : CoreEventRaw := { date := some "2023-01-01T00:00Z" }

/-- The competition of the witness scenario: failing situation, venue,
team and first-broadcast pointers next to a resolvable inline
broadcast. -/
def c9Comp : CoreCompRaw :=
  { competitors := [c9Competitor],
    situation := some (RefOr.ref "http://core/situation"),
    venue := some (RefOr.ref "http://core/venue"),
    broadcasts := [RefOr.ref "http://core/broadcast",
      RefOr.inline { names := some [.sStr "ESPN"] }] }

/-- Witness for C9: with every pointer failing, the synthesized
competition still carries an empty situation and an empty venue, the
team-failed competitor appears with emptied team fields and its inline
score and records intact, and the sibling inline broadcast survives
while the failed one is dropped. -/
theorem c9_subpart_isolation_witness :
    ((build_summary_like_payload_from_core c9Fetchers c9Event c9Comp).header.getD
      {}).competitions.map CompRaw.situation = [some {}] ∧
    ((build_summary_like_payload_from_core c9Fetchers c9Event c9Comp).header.getD
      {}).competitions.map CompRaw.venue =
      [some { fullName := none, name := none, indoor := none,
              address := some { city := none, state := none } }] ∧
    ((build_summary_like_payload_from_core c9Fetchers c9Event c9Comp).header.getD
      {}).competitions.map CompRaw.broadcasts =
      [[BroadcastOut.named (.sStr "ESPN")]] ∧
    ((build_summary_like_payload_from_core c9Fetchers c9Event c9Comp).header.getD
      {}).competitions.map CompRaw.competitors =
      [[{ homeAway := some "home",
          team := some
            { id := some (.sStr "12"), displayName := some "", name := some "",
              nickname := none, abbreviation := some "", location := none },
          score := some (.sStr "21"),
          records := some (.list [{ summary := some "9-8" }]),
          record := none, linescores := [] }]] := by
  obtain ⟨h1, h2, h3⟩ := c9_subpart_isolation c9Fetchers c9Event c9Comp
    "http://core/situation" "http://core/venue" c9Competitor "http://core/team"
    "http://core/broadcast" rfl rfl rfl rfl rfl rfl rfl
  refine ⟨?_, ?_, ?_, ?_⟩
  · rw [h1]; rfl
  · rw [h1]; rfl
  · rw [h1]; rfl
  · rw [h1]; rfl

end NflDash
